import Mathlib

/-!
# vtkOpenGLRenderWindow: texture units, stereo state, pixel transfer

A shallow embedding of `Rendering/OpenGL2/vtkOpenGLRenderWindow.cxx`:

* `ActivateTexture`, `DeactivateTexture`, `GetTextureUnitForTexture` and
  `GetTextureUnitManager`, over the member `TextureResourceIds`
  (a `std::map<const vtkTextureObject *, int>`);
* `StereoUpdate`, over the members `StereoRender`, `StereoStatus`, `StereoType`;
* the pixel functions `GetPixelData`, `GetRGBAPixelData`, `GetRGBACharPixelData`,
  `GetZbufferData`, `SetPixelData`, `SetRGBAPixelData`, `SetRGBACharPixelData`,
  `SetZbufferData` in their raw-pointer and array variants, and `DrawPixels`.
  An overloaded name keeps the source's name for the raw-pointer variant and
  gets the suffix `Array` for the variant that takes a VTK array.

C++ `int` values are integers. The texture and stereo functions compare and
store them, and their only arithmetic is `GL_TEXTURE0 + unit`, which stays far
from the `int` bounds for a unit that indexes a hardware texture unit. The
region arithmetic of the pixel functions is done modulo 2^32 (`toInt`), and the
theorems that need it say which values have to be in the `int` range.
-/

namespace VTK

/-! ## `std::map<const vtkTextureObject *, int>` -/

/-- Identity of a `vtkTextureObject` (the pointer value used as map key). -/
abbrev vtkTextureObject := Nat

/-- Key order of a `std::map`: strictly increasing keys, hence no key twice. -/
def KeysAscending (l : List (vtkTextureObject × Int)) : Prop :=
  l.Pairwise (fun a b => a.1 < b.1)

instance (l : List (vtkTextureObject × Int)) : Decidable (KeysAscending l) := by
  unfold KeysAscending; infer_instance

/-- Lookup in the entry list, `std::map::find`: the value stored under `k`
(`found->second`), or `none` for `end()`. -/
def findEntry (k : vtkTextureObject) : List (vtkTextureObject × Int) → Option Int
  | [] => none
  | (k', v) :: rest => if k' = k then some v else findEntry k rest

/-- Insertion in key order, `std::map::insert(std::make_pair(k, v))`: a key that
is already present keeps its old value. -/
def insertEntry (k : vtkTextureObject) (v : Int) :
    List (vtkTextureObject × Int) → List (vtkTextureObject × Int)
  | [] => [(k, v)]
  | (k', v') :: rest =>
    if k < k' then (k, v) :: (k', v') :: rest
    else if k = k' then (k', v') :: rest
    else (k', v') :: insertEntry k v rest

/-- Removal of the element `std::map::find(k)` points to, `std::map::erase(found)`. -/
def eraseEntry (k : vtkTextureObject) :
    List (vtkTextureObject × Int) → List (vtkTextureObject × Int)
  | [] => []
  | (k', v') :: rest => if k' = k then rest else (k', v') :: eraseEntry k rest

/-- The type `std::map<const vtkTextureObject *, int>`: entries in strictly
increasing key order. -/
structure StdMap where
  entries : List (vtkTextureObject × Int)
  ordered : KeysAscending entries
  deriving DecidableEq

namespace StdMap

/-- A default-constructed (or `clear()`ed) map. -/
def empty : StdMap := ⟨[], List.Pairwise.nil⟩

/-- Member `find`; `none` stands for `end()`. -/
def find (m : StdMap) (k : vtkTextureObject) : Option Int := findEntry k m.entries

/-- Member `insert(std::make_pair(k, v))`. -/
def insert (m : StdMap) (k : vtkTextureObject) (v : Int) : StdMap :=
  ⟨insertEntry k v m.entries, by
    have key : ∀ l : List (vtkTextureObject × Int), KeysAscending l →
        KeysAscending (insertEntry k v l) ∧
          ∀ e ∈ insertEntry k v l, e = (k, v) ∨ e ∈ l := by
      intro l
      induction l with
      | nil =>
        intro _
        refine ⟨?_, ?_⟩
        · simp [insertEntry, KeysAscending]
        · intro e he
          simp [insertEntry] at he
          exact Or.inl he
      | cons hd tl ih =>
        intro hl
        obtain ⟨k', v'⟩ := hd
        have hl' : (∀ b ∈ tl, k' < b.1) ∧ KeysAscending tl := by
          simpa [KeysAscending] using hl
        obtain ⟨ih1, ih2⟩ := ih hl'.2
        by_cases h1 : k < k'
        · refine ⟨?_, ?_⟩
          · simp only [insertEntry, if_pos h1]
            refine List.Pairwise.cons ?_ hl
            intro b hb
            rcases List.mem_cons.1 hb with rfl | hb
            · exact h1
            · exact lt_trans h1 (hl'.1 b hb)
          · intro e he
            simp only [insertEntry, if_pos h1] at he
            rcases List.mem_cons.1 he with rfl | he
            · exact Or.inl rfl
            · exact Or.inr he
        · by_cases h2 : k = k'
          · refine ⟨?_, ?_⟩
            · simp only [insertEntry, if_neg h1, if_pos h2]
              exact hl
            · intro e he
              simp only [insertEntry, if_neg h1, if_pos h2] at he
              exact Or.inr he
          · have h3 : k' < k := lt_of_le_of_ne (not_lt.1 h1) (Ne.symm h2)
            refine ⟨?_, ?_⟩
            · simp only [insertEntry, if_neg h1, if_neg h2]
              refine List.Pairwise.cons ?_ ih1
              intro b hb
              rcases ih2 b hb with rfl | hb
              · exact h3
              · exact hl'.1 b hb
            · intro e he
              simp only [insertEntry, if_neg h1, if_neg h2] at he
              rcases List.mem_cons.1 he with rfl | he
              · exact Or.inr (List.mem_cons_self _ _)
              · rcases ih2 e he with rfl | he
                · exact Or.inl rfl
                · exact Or.inr (List.mem_cons_of_mem _ he)
    exact (key m.entries m.ordered).1⟩

/-- Member `erase(found)` with `found = find(k)`, `found != end()`. -/
def erase (m : StdMap) (k : vtkTextureObject) : StdMap :=
  ⟨eraseEntry k m.entries, by
    have key : ∀ l : List (vtkTextureObject × Int), List.Sublist (eraseEntry k l) l := by
      intro l
      induction l with
      | nil => simp [eraseEntry]
      | cons hd tl ih =>
        obtain ⟨k', v'⟩ := hd
        by_cases h : k' = k
        · simp only [eraseEntry, if_pos h]
          exact List.sublist_cons_self _ _
        · simp only [eraseEntry, if_neg h]
          exact List.Sublist.cons₂ _ ih
    exact List.Pairwise.sublist (key m.entries) m.ordered⟩

end StdMap

/-! ## The texture unit manager (collaborator) -/

/-- A call received by a texture unit manager, with the value `Allocate` returned. -/
inductive PoolCall where
  | Allocate (result : Int)
  | Free (textureUnitId : Int)
  deriving DecidableEq

/-- The units a manager has handed out and not got back, read off the calls it
has received (newest call first): a non-negative `Allocate` result is handed
out, `Free` returns a unit. -/
def handedOut : List PoolCall → List Int
  | [] => []
  | PoolCall.Allocate result :: earlier =>
    if result < 0 then handedOut earlier else result :: handedOut earlier
  | PoolCall.Free textureUnitId :: earlier =>
    (handedOut earlier).filter (fun u => u ≠ textureUnitId)

/-- Modelled from the spec: the "unit-pool manager collaborator providing
`Allocate() -> unit-or-failure` and `Free(unit)`", class `vtkTextureUnitManager`,
whose source file is not part of this translation unit. An instance is the
sequence of calls it has received, newest first. -/
structure vtkTextureUnitManager where
  Calls : List PoolCall
  deriving DecidableEq

/-- What `vtkTextureUnitManager::Allocate` answers, as a function of the calls
the instance has received so far. The window code is verified for every such
function. -/
abbrev AllocatePolicy := List PoolCall → Int

/-- The pool contract: `Allocate` returns either a negative failure value or a
unit that is not currently handed out. -/
def PoolContract (policy : AllocatePolicy) : Prop :=
  ∀ calls : List PoolCall, policy calls < 0 ∨ policy calls ∉ handedOut calls

namespace vtkTextureUnitManager

/-- A manager fresh from `vtkTextureUnitManager::New()`. -/
def New : vtkTextureUnitManager := ⟨[]⟩

/-- Member `Allocate()`: the returned value and the manager afterwards. -/
def Allocate (policy : AllocatePolicy) (m : vtkTextureUnitManager) :
    Int × vtkTextureUnitManager :=
  (policy m.Calls, ⟨PoolCall.Allocate (policy m.Calls) :: m.Calls⟩)

/-- Member `Free(textureUnitId)`. -/
def Free (m : vtkTextureUnitManager) (textureUnitId : Int) : vtkTextureUnitManager :=
  ⟨PoolCall.Free textureUnitId :: m.Calls⟩

end vtkTextureUnitManager

/-- An example pool: of the units `0 .. n-1`, the lowest one not handed out,
and `-1` when all are taken. -/
def firstFreeUnit (n : Nat) : AllocatePolicy := fun calls =>
  match (List.range n).find? (fun i => decide ((i : Int) ∉ handedOut calls)) with
  | some i => (i : Int)
  | none => -1

/-! ## C `int` arithmetic of the pixel functions -/

/-- The least value of type `int` (32 bits). -/
def INT_MIN : Int := -2147483648

/-- The greatest value of type `int` (32 bits). -/
def INT_MAX : Int := 2147483647

/-- The number `z` is a value of type `int`. -/
def IsInt (z : Int) : Prop := INT_MIN ≤ z ∧ z ≤ INT_MAX

instance (z : Int) : Decidable (IsInt z) := by
  unfold IsInt; infer_instance

/-- The `int` that holds an arithmetic result: the result itself when it is an
`int`, and its residue modulo 2^32 in the `int` range when it overflows. -/
def toInt (z : Int) : Int := (z + 2147483648) % 4294967296 - 2147483648

/-- The expression `a + b` on `int`. -/
def intAdd (a b : Int) : Int := toInt (a + b)

/-- The expression `a - b` on `int`. -/
def intSub (a b : Int) : Int := toInt (a - b)

/-- The expression `a * b` on `int`. -/
def intMul (a b : Int) : Int := toInt (a * b)

/-- The call `abs(a)` on `int`. -/
def intAbs (a : Int) : Int := toInt (if a < 0 then -a else a)

/-- The local variables `y_low`, `y_hi`, `x_low`, `x_hi`. -/
structure PixelBounds where
  y_low : Int
  y_hi : Int
  x_low : Int
  x_hi : Int
  deriving DecidableEq

/-- The two blocks `if (y1 < y2) { y_low = y1; y_hi = y2; } else { y_low = y2;
y_hi = y1; }` and `if (x1 < x2) ...` that open the colour pixel functions. -/
def canonicalBounds (x1 y1 x2 y2 : Int) : PixelBounds :=
  { y_low := if y1 < y2 then y1 else y2
    y_hi := if y1 < y2 then y2 else y1
    x_low := if x1 < x2 then x1 else x2
    x_hi := if x1 < x2 then x2 else x1 }

/-- The statements `width = abs(x_hi - x_low) + 1; height = abs(y_hi - y_low) + 1;`
of the colour pixel functions: (width, height). -/
def colorExtent (b : PixelBounds) : Int × Int :=
  (intAdd (intAbs (intSub b.x_hi b.x_low)) 1, intAdd (intAbs (intSub b.y_hi b.y_low)) 1)

/-- The statement `int size = C*width*height;` of the colour array variants. -/
def colorSize (C : Int) (x1 y1 x2 y2 : Int) : Int :=
  intMul (intMul C (colorExtent (canonicalBounds x1 y1 x2 y2)).1)
    (colorExtent (canonicalBounds x1 y1 x2 y2)).2

/-- The statements `width = abs(x2 - x1)+1; height = abs(y2 - y1)+1;` of the
depth buffer functions: (width, height). -/
def depthExtent (x1 y1 x2 y2 : Int) : Int × Int :=
  (intAdd (intAbs (intSub x2 x1)) 1, intAdd (intAbs (intSub y2 y1)) 1)

/-- The statement `int size = width*height;` of the depth buffer array variants. -/
def depthSize (x1 y1 x2 y2 : Int) : Int :=
  intMul (depthExtent x1 y1 x2 y2).1 (depthExtent x1 y1 x2 y2).2

/-- The blocks `if (y1 < y2) { y_low = y1; } else { y_low = y2; }` and
`if (x1 < x2) ...` of `GetZbufferData`: (x_low, y_low). -/
def depthOrigin (x1 y1 x2 y2 : Int) : Int × Int :=
  (if x1 < x2 then x1 else x2, if y1 < y2 then y1 else y2)

/-- No `int` overflow in the region arithmetic for the corners (x1, y1),
(x2, y2) and `C` values per pixel: the corners, the width, the height and the
products `C*width` and `C*width*height` are values of type `int`. -/
def RegionFits (C x1 y1 x2 y2 : Int) : Prop :=
  IsInt x1 ∧ IsInt y1 ∧ IsInt x2 ∧ IsInt y2 ∧
  IsInt (max x1 x2 - min x1 x2 + 1) ∧ IsInt (max y1 y2 - min y1 y2 + 1) ∧
  IsInt (C * (max x1 x2 - min x1 x2 + 1)) ∧
  IsInt (C * (max x1 x2 - min x1 x2 + 1) * (max y1 y2 - min y1 y2 + 1))

instance (C x1 y1 x2 y2 : Int) : Decidable (RegionFits C x1 y1 x2 y2) := by
  unfold RegionFits; infer_instance

/-! ## Caller-supplied arrays -/

/-- Modelled from the spec: the caller-provided "growable buffer" of the
object-buffer variants, `vtkUnsignedCharArray` or `vtkFloatArray`, classes whose
source is not part of this file. An array is its number of components and its
values, each value as the bit pattern stored. -/
structure vtkDataArray where
  NumberOfComponents : Int
  Values : List Nat
  deriving DecidableEq

namespace vtkDataArray

/-- Modelled from the spec: member `GetMaxId()`, the index of the last value, so
that `GetMaxId()+1` is the element count the capacity check compares. -/
def GetMaxId (a : vtkDataArray) : Int := (a.Values.length : Int) - 1

/-- Modelled from the spec: member `SetNumberOfComponents(n)`. -/
def SetNumberOfComponents (a : vtkDataArray) (n : Int) : vtkDataArray :=
  { a with NumberOfComponents := n }

/-- Modelled from the spec: member `SetNumberOfValues(number)`, the resize of
the read path; afterwards the array holds `number` values. Their contents are
not specified and are zero here. -/
def SetNumberOfValues (a : vtkDataArray) (number : Int) : vtkDataArray :=
  { a with Values := List.replicate number.toNat 0 }

/-- Modelled from the spec: member `GetPointer(0)`, the storage handed to the
raw-pointer variant. -/
def GetPointer (a : vtkDataArray) : List Nat := a.Values

end vtkDataArray

/-! ## OpenGL: commands and error flags -/

/-- The result codes `VTK_OK` and `VTK_ERROR` of the pixel functions, two
different values of type `int`. -/
inductive vtkResult where
  | VTK_OK
  | VTK_ERROR
  deriving DecidableEq

/-- The error codes `glGetError` can return other than `GL_NO_ERROR`. -/
inductive GLErrorFlag where
  | GL_INVALID_ENUM
  | GL_INVALID_VALUE
  | GL_INVALID_OPERATION
  | GL_INVALID_FRAMEBUFFER_OPERATION
  | GL_OUT_OF_MEMORY
  deriving DecidableEq

/-- The capabilities the pixel functions enable and disable. -/
inductive GLCapability where
  | GL_SCISSOR_TEST
  | GL_DEPTH_TEST
  | GL_BLEND
  | GL_TEXTURE_2D
  deriving DecidableEq

/-- The parameter names the pixel functions set and query. -/
inductive GLParameter where
  | GL_PACK_ALIGNMENT
  | GL_DRAW_BUFFER
  deriving DecidableEq

/-- The pixel formats the pixel functions read. -/
inductive GLPixelFormat where
  | GL_RGB
  | GL_RGBA
  | GL_DEPTH_COMPONENT
  deriving DecidableEq

/-- The values per pixel of a format. -/
def GLPixelFormat.components : GLPixelFormat → Nat
  | GLPixelFormat.GL_RGB => 3
  | GLPixelFormat.GL_RGBA => 4
  | GLPixelFormat.GL_DEPTH_COMPONENT => 1

/-- The pixel data types the pixel functions read. -/
inductive GLPixelType where
  | GL_UNSIGNED_BYTE
  | GL_FLOAT
  deriving DecidableEq

/-- The scalar types `DrawPixels` is called with. -/
inductive vtkScalarType where
  | VTK_UNSIGNED_CHAR
  | VTK_FLOAT
  deriving DecidableEq

/-- What the pixel functions ask of the graphics system: the OpenGL commands
they issue, the virtual `MakeCurrent()`, and the rendering of the
`DrawPixelsActor`, which `DrawPixels` sets up with the corners of the region,
the extent of the image, the number of components, the scalar type, the number
of values of the image and the values themselves. -/
inductive GLCommand where
  | MakeCurrent
  | glReadBuffer (mode : Int)
  | glDrawBuffer (mode : Int)
  | glGetIntegerv (pname : GLParameter)
  | glDisable (cap : GLCapability)
  | glEnable (cap : GLCapability)
  | glPixelStorei (pname : GLParameter) (param : Int)
  | glReadPixels (x y width height : Int) (format : GLPixelFormat) (type : GLPixelType)
  | glDepthMask (flag : Bool)
  | glViewport (x y width height : Int)
  | RenderOverlay (x_low y_low x_hi y_hi : Int) (extentX extentY : Int)
      (numComponents : Int) (dataType : vtkScalarType) (count : Int) (data : List Nat)
  | glFlush
  deriving DecidableEq

/-- The error state and history of the OpenGL context: the error flags recorded
and not yet returned by `glGetError` (finitely many, oldest first), and the
commands issued so far (newest first). -/
structure GLState where
  Pending : List GLErrorFlag
  Issued : List GLCommand
  deriving DecidableEq

/-- The OpenGL implementation the window runs on, a parameter of the pixel
functions: the error flags a command records, the value `glGetIntegerv`
stores, and the value of a component of a pixel, each as a function of the
commands issued before. -/
structure GLDriver where
  Raises : List GLCommand → GLCommand → List GLErrorFlag
  GetIntegerv : List GLCommand → GLParameter → Int
  Pixel : List GLCommand → GLPixelFormat → GLPixelType → Int → Int → Nat → Nat

/-- The values `glReadPixels(x, y, width, height, format, type, data)` stores
at `data` with a pack alignment of 1: row after row from `y` upwards, pixel
after pixel from `x`, component after component. -/
def readPixelValues (pixel : Int → Int → Nat → Nat) (x y width height : Int)
    (components : Nat) : List Nat :=
  (List.range (height.toNat * width.toNat * components)).map (fun i =>
    pixel (x + ((i / components % width.toNat : Nat) : Int))
      (y + ((i / components / width.toNat : Nat) : Int)) (i % components))

/-- Storing `values` at the start of the memory `data` points to. -/
def storeAt (data values : List Nat) : List Nat := values ++ data.drop values.length

/-- The OpenGL enumerants the constructor assigns to the buffer members. -/
def GL_FRONT_LEFT : Int := 0x0400

/-- The OpenGL enumerant `GL_BACK_LEFT`. -/
def GL_BACK_LEFT : Int := 0x0402

/-- The OpenGL enumerant `GL_FRONT`. -/
def GL_FRONT : Int := 0x0404

/-- The OpenGL enumerant `GL_BACK`. -/
def GL_BACK : Int := 0x0405

/-- An example implementation: `glReadBuffer` and `glDrawBuffer` record
`GL_INVALID_ENUM` for a mode outside `GL_FRONT_LEFT .. GL_BACK`, `glReadPixels`
records `GL_INVALID_VALUE` for a negative width or height, nothing else records
an error; the draw buffer is `GL_BACK`; component `c` of pixel (x, y) holds
`x + 10*y + c`. -/
def exampleDriver : GLDriver :=
  { Raises := fun _ command =>
      match command with
      | GLCommand.glReadBuffer mode =>
        if 0x0400 ≤ mode ∧ mode ≤ 0x0405 then [] else [GLErrorFlag.GL_INVALID_ENUM]
      | GLCommand.glDrawBuffer mode =>
        if 0x0400 ≤ mode ∧ mode ≤ 0x0405 then [] else [GLErrorFlag.GL_INVALID_ENUM]
      | GLCommand.glReadPixels _ _ width height _ _ =>
        if width < 0 ∨ height < 0 then [GLErrorFlag.GL_INVALID_VALUE] else []
      | _ => []
    GetIntegerv := fun _ _ => GL_BACK
    Pixel := fun _ _ _ x y c => (x + 10 * y + c).toNat }

/-! ## The render window -/

/-- The part of the OpenGL context state the embedded functions touch. -/
structure GLContext where
  /-- The selector of the active texture unit (`GL_ACTIVE_TEXTURE`). -/
  ActiveTexture : Int
  /-- The arguments of the `glActiveTexture` calls made so far, newest first. -/
  ActiveTextureCalls : List Int
  deriving DecidableEq

/-- The OpenGL enumerant `GL_TEXTURE0`. -/
def GL_TEXTURE0 : Int := 0x84C0

/-- The members of `vtkOpenGLRenderWindow` read or written by the embedded
functions, the OpenGL context the window is current on, and the messages
passed to `vtkErrorMacro` (newest first). The buffer members hold the values
`GetFrontLeftBuffer()`, `GetBackLeftBuffer()`, `GetFrontBuffer()` and
`GetBackBuffer()` return. -/
structure vtkOpenGLRenderWindow where
  TextureResourceIds : StdMap
  /-- The member `TextureUnitManager`; `none` is the null pointer. -/
  TextureUnitManager : Option vtkTextureUnitManager
  StereoRender : Int
  StereoStatus : Int
  StereoType : Int
  Context : GLContext
  ErrorLog : List String
  FrontLeftBuffer : Int
  BackLeftBuffer : Int
  FrontBuffer : Int
  BackBuffer : Int
  /-- The member `Size` of the window: width and height in pixels. -/
  Size : Int × Int
  /-- The error flags and command history of the OpenGL context. -/
  Graphics : GLState
  /-- The messages passed to `vtkDebugMacro`, newest first. -/
  DebugLog : List String
  deriving DecidableEq

namespace vtkOpenGLRenderWindow

/-- The call `glActiveTexture(texture)`. -/
def glActiveTexture (w : vtkOpenGLRenderWindow) (texture : Int) : vtkOpenGLRenderWindow :=
  { w with Context := ⟨texture, texture :: w.Context.ActiveTextureCalls⟩ }

/-- The statement `vtkErrorMacro(message)`. -/
def vtkErrorMacro (w : vtkOpenGLRenderWindow) (message : String) : vtkOpenGLRenderWindow :=
  { w with ErrorLog := message :: w.ErrorLog }

/-- Member `GetTextureUnitManager()`: "Returns its texture unit manager object.
A new one will be created if one hasn't already been set up." -/
def GetTextureUnitManager (w : vtkOpenGLRenderWindow) :
    vtkTextureUnitManager × vtkOpenGLRenderWindow :=
  match w.TextureUnitManager with
  | none =>
    let manager := vtkTextureUnitManager.New
    (manager, { w with TextureUnitManager := some manager })
  | some manager => (manager, w)

/-- Member `ActivateTexture(texture)`. -/
def ActivateTexture (policy : AllocatePolicy) (w : vtkOpenGLRenderWindow)
    (texture : vtkTextureObject) : vtkOpenGLRenderWindow :=
  match w.TextureResourceIds.find texture with
  | none =>
    let (manager, w1) := w.GetTextureUnitManager
    let (activeUnit, manager1) := manager.Allocate policy
    let w2 := { w1 with TextureUnitManager := some manager1 }
    if activeUnit < 0 then
      w2.vtkErrorMacro "Hardware does not support the number of textures defined."
    else
      let w3 := { w2 with TextureResourceIds := w2.TextureResourceIds.insert texture activeUnit }
      w3.glActiveTexture (GL_TEXTURE0 + activeUnit)
  | some second => w.glActiveTexture (GL_TEXTURE0 + second)

/-- Member `DeactivateTexture(texture)`. -/
def DeactivateTexture (w : vtkOpenGLRenderWindow) (texture : vtkTextureObject) :
    vtkOpenGLRenderWindow :=
  match w.TextureResourceIds.find texture with
  | some second =>
    let (manager, w1) := w.GetTextureUnitManager
    let w2 := { w1 with TextureUnitManager := some (manager.Free second) }
    { w2 with TextureResourceIds := w2.TextureResourceIds.erase texture }
  | none => w

/-- Member `GetTextureUnitForTexture(texture)`: the returned value and the
window afterwards. -/
def GetTextureUnitForTexture (w : vtkOpenGLRenderWindow) (texture : vtkTextureObject) :
    Int × vtkOpenGLRenderWindow :=
  match w.TextureResourceIds.find texture with
  | some second => (second, w)
  | none => (-1, w)

end vtkOpenGLRenderWindow

open vtkOpenGLRenderWindow

/-- One call of the texture activation interface. -/
inductive TextureCall where
  | Activate (texture : vtkTextureObject)
  | Deactivate (texture : vtkTextureObject)
  deriving DecidableEq

/-- The window after one call. -/
def TextureCall.apply (policy : AllocatePolicy) (w : vtkOpenGLRenderWindow) :
    TextureCall → vtkOpenGLRenderWindow
  | TextureCall.Activate texture => w.ActivateTexture policy texture
  | TextureCall.Deactivate texture => w.DeactivateTexture texture

/-- The window after a sequence of calls, first call first. -/
def runCalls (policy : AllocatePolicy) (w : vtkOpenGLRenderWindow) :
    List TextureCall → vtkOpenGLRenderWindow
  | [] => w
  | c :: rest => runCalls policy (c.apply policy w) rest

/-- A window with an empty `TextureResourceIds`, no texture unit manager yet,
stereo off and texture unit 0 active: the state used in the examples. -/
def freshWindow : vtkOpenGLRenderWindow :=
  { TextureResourceIds := StdMap.empty
    TextureUnitManager := none
    StereoRender := 0
    StereoStatus := 0
    StereoType := 0
    Context := ⟨GL_TEXTURE0, []⟩
    ErrorLog := []
    FrontLeftBuffer := GL_FRONT_LEFT
    BackLeftBuffer := GL_BACK_LEFT
    FrontBuffer := GL_FRONT
    BackBuffer := GL_BACK
    Size := (300, 300)
    Graphics := ⟨[], []⟩
    DebugLog := [] }

/-- The calls the window's texture unit manager has received; none when the
manager has not been created yet. -/
def poolCalls (w : vtkOpenGLRenderWindow) : List PoolCall :=
  match w.TextureUnitManager with
  | none => []
  | some manager => manager.Calls

/-- The texture bookkeeping invariant: every unit in `TextureResourceIds` is
one the manager has handed out and not got back, and no unit is stored under
two textures. -/
def UnitsOwned (w : vtkOpenGLRenderWindow) : Prop :=
  (∀ t u, w.TextureResourceIds.find t = some u → u ∈ handedOut (poolCalls w)) ∧
  (∀ t1 t2 u, w.TextureResourceIds.find t1 = some u →
    w.TextureResourceIds.find t2 = some u → t1 = t2)

/-! ## Stereo -/

/-- The values of the seven `VTK_STEREO_*` macros that `StereoUpdate` switches
on. They are defined in `vtkRenderWindow.h`; the embedding takes them as a
parameter and uses only that case labels of one `switch` are pairwise
different. -/
structure StereoTypes where
  VTK_STEREO_CRYSTAL_EYES : Int
  VTK_STEREO_RED_BLUE : Int
  VTK_STEREO_ANAGLYPH : Int
  VTK_STEREO_DRESDEN : Int
  VTK_STEREO_INTERLACED : Int
  VTK_STEREO_CHECKERBOARD : Int
  VTK_STEREO_SPLITVIEWPORT_HORIZONTAL : Int
  distinct : [VTK_STEREO_CRYSTAL_EYES, VTK_STEREO_RED_BLUE, VTK_STEREO_ANAGLYPH,
    VTK_STEREO_DRESDEN, VTK_STEREO_INTERLACED, VTK_STEREO_CHECKERBOARD,
    VTK_STEREO_SPLITVIEWPORT_HORIZONTAL].Nodup

/-- The numbering used in the examples: crystal eyes 1, red-blue 2,
interlaced 3, Dresden 6, anaglyph 7, checkerboard 8, split viewport 9. -/
def exampleStereoTypes : StereoTypes :=
  { VTK_STEREO_CRYSTAL_EYES := 1
    VTK_STEREO_RED_BLUE := 2
    VTK_STEREO_ANAGLYPH := 7
    VTK_STEREO_DRESDEN := 6
    VTK_STEREO_INTERLACED := 3
    VTK_STEREO_CHECKERBOARD := 8
    VTK_STEREO_SPLITVIEWPORT_HORIZONTAL := 9
    distinct := by decide }

/-- Member `StereoUpdate()`: "Update system if needed due to stereo rendering." -/
def StereoUpdate (c : StereoTypes) (w : vtkOpenGLRenderWindow) : vtkOpenGLRenderWindow :=
  if w.StereoRender ≠ 0 ∧ w.StereoStatus = 0 then
    if w.StereoType = c.VTK_STEREO_CRYSTAL_EYES then w
    else if w.StereoType = c.VTK_STEREO_RED_BLUE then { w with StereoStatus := 1 }
    else if w.StereoType = c.VTK_STEREO_ANAGLYPH then { w with StereoStatus := 1 }
    else if w.StereoType = c.VTK_STEREO_DRESDEN then { w with StereoStatus := 1 }
    else if w.StereoType = c.VTK_STEREO_INTERLACED then { w with StereoStatus := 1 }
    else if w.StereoType = c.VTK_STEREO_CHECKERBOARD then { w with StereoStatus := 1 }
    else if w.StereoType = c.VTK_STEREO_SPLITVIEWPORT_HORIZONTAL then
      { w with StereoStatus := 1 }
    else w
  else if w.StereoRender = 0 ∧ w.StereoStatus ≠ 0 then
    if w.StereoType = c.VTK_STEREO_CRYSTAL_EYES then { w with StereoStatus := 0 }
    else if w.StereoType = c.VTK_STEREO_RED_BLUE then { w with StereoStatus := 0 }
    else if w.StereoType = c.VTK_STEREO_ANAGLYPH then { w with StereoStatus := 0 }
    else if w.StereoType = c.VTK_STEREO_DRESDEN then { w with StereoStatus := 0 }
    else if w.StereoType = c.VTK_STEREO_INTERLACED then { w with StereoStatus := 0 }
    else if w.StereoType = c.VTK_STEREO_CHECKERBOARD then { w with StereoStatus := 0 }
    else if w.StereoType = c.VTK_STEREO_SPLITVIEWPORT_HORIZONTAL then
      { w with StereoStatus := 0 }
    else w
  else w

/-- The example window with the three stereo members set. -/
def stereoWindow (render status type : Int) : vtkOpenGLRenderWindow :=
  { freshWindow with StereoRender := render, StereoStatus := status, StereoType := type }

/-- The window after `n` calls of `StereoUpdate`. -/
def StereoUpdateTimes (c : StereoTypes) : Nat → vtkOpenGLRenderWindow → vtkOpenGLRenderWindow
  | 0, w => w
  | n + 1, w => StereoUpdateTimes c n (StereoUpdate c w)

/-! ## Pixel transfer -/

namespace vtkOpenGLRenderWindow

/-- The statement `vtkDebugMacro(message)`. -/
def vtkDebugMacro (w : vtkOpenGLRenderWindow) (message : String) : vtkOpenGLRenderWindow :=
  { w with DebugLog := message :: w.DebugLog }

/-- Member `GetFrontLeftBuffer()`. -/
def GetFrontLeftBuffer (w : vtkOpenGLRenderWindow) : Int := w.FrontLeftBuffer

/-- Member `GetBackLeftBuffer()`. -/
def GetBackLeftBuffer (w : vtkOpenGLRenderWindow) : Int := w.BackLeftBuffer

/-- Member `GetFrontBuffer()`. -/
def GetFrontBuffer (w : vtkOpenGLRenderWindow) : Int := w.FrontBuffer

/-- Member `GetBackBuffer()`. -/
def GetBackBuffer (w : vtkOpenGLRenderWindow) : Int := w.BackBuffer

/-- A command is issued: it joins the history, and the error flags the
implementation records for it join the pending ones. -/
def issue (driver : GLDriver) (w : vtkOpenGLRenderWindow) (command : GLCommand) :
    vtkOpenGLRenderWindow :=
  { w with
    Graphics :=
      ⟨w.Graphics.Pending ++ driver.Raises w.Graphics.Issued command,
        command :: w.Graphics.Issued⟩ }

/-- The call `glGetError()`: the oldest pending flag, which is cleared, or
`none` for `GL_NO_ERROR`. -/
def glGetError (w : vtkOpenGLRenderWindow) : Option GLErrorFlag × vtkOpenGLRenderWindow :=
  match w.Graphics.Pending with
  | [] => (none, w)
  | flag :: rest => (some flag, { w with Graphics := ⟨rest, w.Graphics.Issued⟩ })

/-- At most `fuel` rounds of the loop `while(glGetError() != GL_NO_ERROR) { ; }`. -/
def clearErrorsLoop : Nat → vtkOpenGLRenderWindow → vtkOpenGLRenderWindow
  | 0, w => w
  | fuel + 1, w =>
    match w.glGetError with
    | (none, w1) => w1
    | (some _, w1) => clearErrorsLoop fuel w1

/-- The loop `while(glGetError() != GL_NO_ERROR) { ; }` ("Must clear previous
errors first."): one round per pending flag and the round that returns
`GL_NO_ERROR`. -/
def clearErrors (w : vtkOpenGLRenderWindow) : vtkOpenGLRenderWindow :=
  clearErrorsLoop (w.Graphics.Pending.length + 1) w

/-- The call `glReadPixels(x, y, width, height, format, type, data)`: the memory
at `data` afterwards and the window. "If an error is generated, no change is
made to the contents of data." -/
def glReadPixels (driver : GLDriver) (w : vtkOpenGLRenderWindow) (x y width height : Int)
    (format : GLPixelFormat) (type : GLPixelType) (data : List Nat) :
    List Nat × vtkOpenGLRenderWindow :=
  if driver.Raises w.Graphics.Issued (GLCommand.glReadPixels x y width height format type)
      = [] then
    (storeAt data
        (readPixelValues (driver.Pixel w.Graphics.Issued format type) x y width height
          format.components),
      w.issue driver (GLCommand.glReadPixels x y width height format type))
  else
    (data, w.issue driver (GLCommand.glReadPixels x y width height format type))

/-- The closing statement of the raw-pointer pixel functions:
`if (glGetError() != GL_NO_ERROR) { return VTK_ERROR; } else { return VTK_OK; }`,
with the memory at `data` and the window. -/
def returnErrorCheck (state : List Nat × vtkOpenGLRenderWindow) :
    vtkResult × List Nat × vtkOpenGLRenderWindow :=
  match state.2.glGetError with
  | (some _, w1) => (vtkResult.VTK_ERROR, state.1, w1)
  | (none, w1) => (vtkResult.VTK_OK, state.1, w1)

/-- Member `DrawPixels(x1, y1, x2, y2, numComponents, dataType, data)`. The
`DrawPixelsActor` with its mapper, points, texture coordinates and image is
represented by what it is given: the command `RenderOverlay` carries the four
corner coordinates, the image extent `x_hi-x_low`, `y_hi-y_low`, and the
scalars `(x_hi-x_low+1)*(y_hi-y_low+1)*numComponents` values at `data`. -/
def DrawPixels (driver : GLDriver) (w : vtkOpenGLRenderWindow) (x1 y1 x2 y2 : Int)
    (numComponents : Int) (dataType : vtkScalarType) (data : List Nat) :
    vtkOpenGLRenderWindow :=
  let b := canonicalBounds x1 y1 x2 y2
  let w := w.issue driver (GLCommand.glDisable GLCapability.GL_SCISSOR_TEST)
  let w := w.issue driver (GLCommand.glViewport 0 0 w.Size.1 w.Size.2)
  let w := w.issue driver (GLCommand.glDisable GLCapability.GL_DEPTH_TEST)
  let w := w.issue driver
    (GLCommand.RenderOverlay b.x_low b.y_low b.x_hi b.y_hi
      (intSub b.x_hi b.x_low) (intSub b.y_hi b.y_low) numComponents dataType
      (intMul (intMul (intAdd (intSub b.x_hi b.x_low) 1) (intAdd (intSub b.y_hi b.y_low) 1))
        numComponents)
      data)
  let w := w.issue driver (GLCommand.glEnable GLCapability.GL_DEPTH_TEST)
  w.issue driver GLCommand.glFlush

/-- Member `GetPixelData(x1, y1, x2, y2, front, unsigned char* data)` up to its
closing error check: the memory at `data` and the window. -/
def GetPixelDataBody (driver : GLDriver) (w : vtkOpenGLRenderWindow)
    (x1 y1 x2 y2 front : Int) (data : List Nat) : List Nat × vtkOpenGLRenderWindow :=
  let w := w.issue driver GLCommand.MakeCurrent
  let b := canonicalBounds x1 y1 x2 y2
  let w := w.clearErrors
  let w :=
    if front ≠ 0 then w.issue driver (GLCommand.glReadBuffer w.GetFrontLeftBuffer)
    else w.issue driver (GLCommand.glReadBuffer w.GetBackLeftBuffer)
  let w := w.issue driver (GLCommand.glDisable GLCapability.GL_SCISSOR_TEST)
  let w := w.issue driver (GLCommand.glPixelStorei GLParameter.GL_PACK_ALIGNMENT 1)
  w.glReadPixels driver b.x_low b.y_low (intAdd (intSub b.x_hi b.x_low) 1)
    (intAdd (intSub b.y_hi b.y_low) 1) GLPixelFormat.GL_RGB GLPixelType.GL_UNSIGNED_BYTE data

/-- Member `GetPixelData(x1, y1, x2, y2, front, unsigned char* data)`. -/
def GetPixelData (driver : GLDriver) (w : vtkOpenGLRenderWindow)
    (x1 y1 x2 y2 front : Int) (data : List Nat) :
    vtkResult × List Nat × vtkOpenGLRenderWindow :=
  returnErrorCheck (w.GetPixelDataBody driver x1 y1 x2 y2 front data)

/-- Member `GetRGBAPixelData(x1, y1, x2, y2, front, float* data)` up to its
closing error check. -/
def GetRGBAPixelDataBody (driver : GLDriver) (w : vtkOpenGLRenderWindow)
    (x1 y1 x2 y2 front : Int) (data : List Nat) : List Nat × vtkOpenGLRenderWindow :=
  let w := w.issue driver GLCommand.MakeCurrent
  let b := canonicalBounds x1 y1 x2 y2
  let w := w.clearErrors
  let w :=
    if front ≠ 0 then w.issue driver (GLCommand.glReadBuffer w.GetFrontLeftBuffer)
    else w.issue driver (GLCommand.glReadBuffer w.GetBackLeftBuffer)
  let width := (colorExtent b).1
  let height := (colorExtent b).2
  let w := w.issue driver (GLCommand.glDisable GLCapability.GL_TEXTURE_2D)
  let w := w.issue driver (GLCommand.glPixelStorei GLParameter.GL_PACK_ALIGNMENT 1)
  w.glReadPixels driver b.x_low b.y_low width height GLPixelFormat.GL_RGBA
    GLPixelType.GL_FLOAT data

/-- Member `GetRGBAPixelData(x1, y1, x2, y2, front, float* data)`. -/
def GetRGBAPixelData (driver : GLDriver) (w : vtkOpenGLRenderWindow)
    (x1 y1 x2 y2 front : Int) (data : List Nat) :
    vtkResult × List Nat × vtkOpenGLRenderWindow :=
  returnErrorCheck (w.GetRGBAPixelDataBody driver x1 y1 x2 y2 front data)

/-- Member `GetRGBACharPixelData(x1, y1, x2, y2, front, unsigned char* data)` up
to its closing error check. -/
def GetRGBACharPixelDataBody (driver : GLDriver) (w : vtkOpenGLRenderWindow)
    (x1 y1 x2 y2 front : Int) (data : List Nat) : List Nat × vtkOpenGLRenderWindow :=
  let w := w.issue driver GLCommand.MakeCurrent
  let b := canonicalBounds x1 y1 x2 y2
  let w := w.clearErrors
  let w :=
    if front ≠ 0 then w.issue driver (GLCommand.glReadBuffer w.GetFrontLeftBuffer)
    else w.issue driver (GLCommand.glReadBuffer w.GetBackLeftBuffer)
  let width := (colorExtent b).1
  let height := (colorExtent b).2
  let w := w.issue driver (GLCommand.glDisable GLCapability.GL_SCISSOR_TEST)
  w.glReadPixels driver b.x_low b.y_low width height GLPixelFormat.GL_RGBA
    GLPixelType.GL_UNSIGNED_BYTE data

/-- Member `GetRGBACharPixelData(x1, y1, x2, y2, front, unsigned char* data)`. -/
def GetRGBACharPixelData (driver : GLDriver) (w : vtkOpenGLRenderWindow)
    (x1 y1 x2 y2 front : Int) (data : List Nat) :
    vtkResult × List Nat × vtkOpenGLRenderWindow :=
  returnErrorCheck (w.GetRGBACharPixelDataBody driver x1 y1 x2 y2 front data)

/-- Member `GetZbufferData(x1, y1, x2, y2, float* z_data)` up to its closing
error check. -/
def GetZbufferDataBody (driver : GLDriver) (w : vtkOpenGLRenderWindow)
    (x1 y1 x2 y2 : Int) (z_data : List Nat) : List Nat × vtkOpenGLRenderWindow :=
  let w := w.issue driver GLCommand.MakeCurrent
  let y_low := (depthOrigin x1 y1 x2 y2).2
  let x_low := (depthOrigin x1 y1 x2 y2).1
  let width := (depthExtent x1 y1 x2 y2).1
  let height := (depthExtent x1 y1 x2 y2).2
  let w := w.clearErrors
  let w := w.issue driver (GLCommand.glDisable GLCapability.GL_SCISSOR_TEST)
  let w := w.issue driver (GLCommand.glPixelStorei GLParameter.GL_PACK_ALIGNMENT 1)
  w.glReadPixels driver x_low y_low width height GLPixelFormat.GL_DEPTH_COMPONENT
    GLPixelType.GL_FLOAT z_data

/-- Member `GetZbufferData(x1, y1, x2, y2, float* z_data)`. -/
def GetZbufferData (driver : GLDriver) (w : vtkOpenGLRenderWindow)
    (x1 y1 x2 y2 : Int) (z_data : List Nat) :
    vtkResult × List Nat × vtkOpenGLRenderWindow :=
  returnErrorCheck (w.GetZbufferDataBody driver x1 y1 x2 y2 z_data)

/-- Member `SetPixelData(x1, y1, x2, y2, unsigned char *data, front)` up to its
closing error check. -/
def SetPixelDataBody (driver : GLDriver) (w : vtkOpenGLRenderWindow)
    (x1 y1 x2 y2 : Int) (data : List Nat) (front : Int) :
    List Nat × vtkOpenGLRenderWindow :=
  let w := w.issue driver GLCommand.MakeCurrent
  let w := w.clearErrors
  let buffer := driver.GetIntegerv w.Graphics.Issued GLParameter.GL_DRAW_BUFFER
  let w := w.issue driver (GLCommand.glGetIntegerv GLParameter.GL_DRAW_BUFFER)
  let w :=
    if front ≠ 0 then w.issue driver (GLCommand.glDrawBuffer w.GetFrontBuffer)
    else w.issue driver (GLCommand.glDrawBuffer w.GetBackBuffer)
  let w := w.DrawPixels driver x1 y1 x2 y2 3 vtkScalarType.VTK_UNSIGNED_CHAR data
  let w := w.issue driver (GLCommand.glDrawBuffer buffer)
  (data, w)

/-- Member `SetPixelData(x1, y1, x2, y2, unsigned char *data, front)`. -/
def SetPixelData (driver : GLDriver) (w : vtkOpenGLRenderWindow)
    (x1 y1 x2 y2 : Int) (data : List Nat) (front : Int) :
    vtkResult × List Nat × vtkOpenGLRenderWindow :=
  returnErrorCheck (w.SetPixelDataBody driver x1 y1 x2 y2 data front)

/-- Member `SetRGBAPixelData(x1, y1, x2, y2, float *data, front, blend)` up to
its closing error check. -/
def SetRGBAPixelDataBody (driver : GLDriver) (w : vtkOpenGLRenderWindow)
    (x1 y1 x2 y2 : Int) (data : List Nat) (front blend : Int) :
    List Nat × vtkOpenGLRenderWindow :=
  let w := w.issue driver GLCommand.MakeCurrent
  let w := w.clearErrors
  let buffer := driver.GetIntegerv w.Graphics.Issued GLParameter.GL_DRAW_BUFFER
  let w := w.issue driver (GLCommand.glGetIntegerv GLParameter.GL_DRAW_BUFFER)
  let w :=
    if front ≠ 0 then w.issue driver (GLCommand.glDrawBuffer w.GetFrontBuffer)
    else w.issue driver (GLCommand.glDrawBuffer w.GetBackBuffer)
  let w :=
    if blend = 0 then
      let w := w.issue driver (GLCommand.glDisable GLCapability.GL_BLEND)
      let w := w.DrawPixels driver x1 y1 x2 y2 4 vtkScalarType.VTK_FLOAT data
      w.issue driver (GLCommand.glEnable GLCapability.GL_BLEND)
    else
      w.DrawPixels driver x1 y1 x2 y2 4 vtkScalarType.VTK_FLOAT data
  let w := w.issue driver (GLCommand.glDrawBuffer buffer)
  (data, w)

/-- Member `SetRGBAPixelData(x1, y1, x2, y2, float *data, front, blend)`. -/
def SetRGBAPixelData (driver : GLDriver) (w : vtkOpenGLRenderWindow)
    (x1 y1 x2 y2 : Int) (data : List Nat) (front blend : Int) :
    vtkResult × List Nat × vtkOpenGLRenderWindow :=
  returnErrorCheck (w.SetRGBAPixelDataBody driver x1 y1 x2 y2 data front blend)

/-- Member `SetRGBACharPixelData(x1, y1, x2, y2, unsigned char *data, front,
blend)` up to its closing error check. -/
def SetRGBACharPixelDataBody (driver : GLDriver) (w : vtkOpenGLRenderWindow)
    (x1 y1 x2 y2 : Int) (data : List Nat) (front blend : Int) :
    List Nat × vtkOpenGLRenderWindow :=
  let w := w.issue driver GLCommand.MakeCurrent
  let w := w.clearErrors
  let buffer := driver.GetIntegerv w.Graphics.Issued GLParameter.GL_DRAW_BUFFER
  let w := w.issue driver (GLCommand.glGetIntegerv GLParameter.GL_DRAW_BUFFER)
  let w :=
    if front ≠ 0 then w.issue driver (GLCommand.glDrawBuffer w.GetFrontBuffer)
    else w.issue driver (GLCommand.glDrawBuffer w.GetBackBuffer)
  let w := w.issue driver (GLCommand.glDepthMask false)
  let w := w.issue driver (GLCommand.glDisable GLCapability.GL_DEPTH_TEST)
  let w :=
    if blend = 0 then
      let w := w.issue driver (GLCommand.glDisable GLCapability.GL_BLEND)
      let w := w.DrawPixels driver x1 y1 x2 y2 4 vtkScalarType.VTK_UNSIGNED_CHAR data
      w.issue driver (GLCommand.glEnable GLCapability.GL_BLEND)
    else
      w.DrawPixels driver x1 y1 x2 y2 4 vtkScalarType.VTK_UNSIGNED_CHAR data
  let w := w.issue driver (GLCommand.glDepthMask true)
  let w := w.issue driver (GLCommand.glEnable GLCapability.GL_DEPTH_TEST)
  let w := w.issue driver GLCommand.glFlush
  let w := w.issue driver (GLCommand.glDrawBuffer buffer)
  (data, w)

/-- Member `SetRGBACharPixelData(x1, y1, x2, y2, unsigned char *data, front,
blend)`. -/
def SetRGBACharPixelData (driver : GLDriver) (w : vtkOpenGLRenderWindow)
    (x1 y1 x2 y2 : Int) (data : List Nat) (front blend : Int) :
    vtkResult × List Nat × vtkOpenGLRenderWindow :=
  returnErrorCheck (w.SetRGBACharPixelDataBody driver x1 y1 x2 y2 data front blend)

/-- Member `SetZbufferData(x1, y1, x2, y2, float *buffer)`, all parameters
`vtkNotUsed`: "not sure this can be done in the new opengl". -/
def SetZbufferData (w : vtkOpenGLRenderWindow) (_x1 _y1 _x2 _y2 : Int)
    (buffer : List Nat) : vtkResult × List Nat × vtkOpenGLRenderWindow :=
  (vtkResult.VTK_ERROR, buffer, w)

/-- The array with the memory its storage holds after a raw-pointer call. -/
def withStorage (data : vtkDataArray)
    (r : vtkResult × List Nat × vtkOpenGLRenderWindow) :
    vtkResult × vtkDataArray × vtkOpenGLRenderWindow :=
  (r.1, { data with Values := r.2.1 }, r.2.2)

/-- Member `GetPixelData(x1, y1, x2, y2, front, vtkUnsignedCharArray* data)`. -/
def GetPixelDataArray (driver : GLDriver) (w : vtkOpenGLRenderWindow)
    (x1 y1 x2 y2 front : Int) (data : vtkDataArray) :
    vtkResult × vtkDataArray × vtkOpenGLRenderWindow :=
  let size := colorSize 3 x1 y1 x2 y2
  let (data, w) :=
    if data.GetMaxId + 1 ≠ size then
      ((data.SetNumberOfComponents 3).SetNumberOfValues size,
        w.vtkDebugMacro "Resizing array.")
    else (data, w)
  withStorage data (w.GetPixelData driver x1 y1 x2 y2 front data.GetPointer)

/-- Member `GetRGBAPixelData(x1, y1, x2, y2, front, vtkFloatArray* data)`. -/
def GetRGBAPixelDataArray (driver : GLDriver) (w : vtkOpenGLRenderWindow)
    (x1 y1 x2 y2 front : Int) (data : vtkDataArray) :
    vtkResult × vtkDataArray × vtkOpenGLRenderWindow :=
  let size := colorSize 4 x1 y1 x2 y2
  let (data, w) :=
    if data.GetMaxId + 1 ≠ size then
      ((data.SetNumberOfComponents 4).SetNumberOfValues size,
        w.vtkDebugMacro "Resizing array.")
    else (data, w)
  withStorage data (w.GetRGBAPixelData driver x1 y1 x2 y2 front data.GetPointer)

/-- Member `GetRGBACharPixelData(x1, y1, x2, y2, front, vtkUnsignedCharArray* data)`. -/
def GetRGBACharPixelDataArray (driver : GLDriver) (w : vtkOpenGLRenderWindow)
    (x1 y1 x2 y2 front : Int) (data : vtkDataArray) :
    vtkResult × vtkDataArray × vtkOpenGLRenderWindow :=
  let size := colorSize 4 x1 y1 x2 y2
  let (data, w) :=
    if data.GetMaxId + 1 ≠ size then
      ((data.SetNumberOfComponents 4).SetNumberOfValues size,
        w.vtkDebugMacro "Resizing array.")
    else (data, w)
  withStorage data (w.GetRGBACharPixelData driver x1 y1 x2 y2 front data.GetPointer)

/-- Member `GetZbufferData(x1, y1, x2, y2, vtkFloatArray *buffer)`. -/
def GetZbufferDataArray (driver : GLDriver) (w : vtkOpenGLRenderWindow)
    (x1 y1 x2 y2 : Int) (buffer : vtkDataArray) :
    vtkResult × vtkDataArray × vtkOpenGLRenderWindow :=
  let size := depthSize x1 y1 x2 y2
  let (buffer, w) :=
    if buffer.GetMaxId + 1 ≠ size then
      ((buffer.SetNumberOfComponents 1).SetNumberOfValues size,
        w.vtkDebugMacro "Resizing array.")
    else (buffer, w)
  withStorage buffer (w.GetZbufferData driver x1 y1 x2 y2 buffer.GetPointer)

/-- Member `SetPixelData(x1, y1, x2, y2, vtkUnsignedCharArray *data, front)`. -/
def SetPixelDataArray (driver : GLDriver) (w : vtkOpenGLRenderWindow)
    (x1 y1 x2 y2 : Int) (data : vtkDataArray) (front : Int) :
    vtkResult × vtkDataArray × vtkOpenGLRenderWindow :=
  let size := colorSize 3 x1 y1 x2 y2
  if data.GetMaxId + 1 ≠ size then
    (vtkResult.VTK_ERROR, data, w.vtkErrorMacro "Buffer is of wrong size.")
  else
    withStorage data (w.SetPixelData driver x1 y1 x2 y2 data.GetPointer front)

/-- Member `SetRGBAPixelData(x1, y1, x2, y2, vtkFloatArray *data, front, blend)`. -/
def SetRGBAPixelDataArray (driver : GLDriver) (w : vtkOpenGLRenderWindow)
    (x1 y1 x2 y2 : Int) (data : vtkDataArray) (front blend : Int) :
    vtkResult × vtkDataArray × vtkOpenGLRenderWindow :=
  let size := colorSize 4 x1 y1 x2 y2
  if data.GetMaxId + 1 ≠ size then
    (vtkResult.VTK_ERROR, data, w.vtkErrorMacro "Buffer is of wrong size.")
  else
    withStorage data (w.SetRGBAPixelData driver x1 y1 x2 y2 data.GetPointer front blend)

/-- Member `SetRGBACharPixelData(x1, y1, x2, y2, vtkUnsignedCharArray *data,
front, blend)`. -/
def SetRGBACharPixelDataArray (driver : GLDriver) (w : vtkOpenGLRenderWindow)
    (x1 y1 x2 y2 : Int) (data : vtkDataArray) (front blend : Int) :
    vtkResult × vtkDataArray × vtkOpenGLRenderWindow :=
  let size := colorSize 4 x1 y1 x2 y2
  if data.GetMaxId + 1 ≠ size then
    (vtkResult.VTK_ERROR, data,
      w.vtkErrorMacro ("Buffer is of wrong size. It is " ++ toString (data.GetMaxId + 1) ++
        ", it should be: " ++ toString size))
  else
    withStorage data (w.SetRGBACharPixelData driver x1 y1 x2 y2 data.GetPointer front blend)

/-- Member `SetZbufferData(x1, y1, x2, y2, vtkFloatArray *buffer)`. -/
def SetZbufferDataArray (w : vtkOpenGLRenderWindow) (x1 y1 x2 y2 : Int)
    (buffer : vtkDataArray) : vtkResult × vtkDataArray × vtkOpenGLRenderWindow :=
  let size := depthSize x1 y1 x2 y2
  if buffer.GetMaxId + 1 ≠ size then
    (vtkResult.VTK_ERROR, buffer, w.vtkErrorMacro "Buffer is of wrong size.")
  else
    withStorage buffer (w.SetZbufferData x1 y1 x2 y2 buffer.GetPointer)

end vtkOpenGLRenderWindow

/-- The array variant `arrayOp` of a read hands the raw-pointer function
`rawOp` an array of exactly `count` values: the call is the raw-pointer call on
the storage of an array `handed` with `GetMaxId()+1 = count`, in a window that
differs from `w` in the debug messages at most; `handed` is the caller's array,
untouched, when that already has `count` values; the result code is the one of
the raw-pointer call; and the array still has `count` values afterwards. -/
def HandsOverExactly
    (arrayOp : vtkDataArray → vtkResult × vtkDataArray × vtkOpenGLRenderWindow)
    (rawOp : vtkOpenGLRenderWindow → List Nat →
      vtkResult × List Nat × vtkOpenGLRenderWindow)
    (w : vtkOpenGLRenderWindow) (data : vtkDataArray) (count : Int) : Prop :=
  ∃ (handed : vtkDataArray) (w1 : vtkOpenGLRenderWindow),
    arrayOp data = withStorage handed (rawOp w1 handed.GetPointer) ∧
    handed.GetMaxId + 1 = count ∧
    (data.GetMaxId + 1 = count → handed = data ∧ w1 = w) ∧
    { w1 with DebugLog := w.DebugLog } = w ∧
    (arrayOp data).1 = (rawOp w1 handed.GetPointer).1 ∧
    (arrayOp data).2.1.GetMaxId + 1 = count

/-! ## Lemmas on the map operations -/

theorem findEntry_mem {k : vtkTextureObject} {v : Int} :
    ∀ {l : List (vtkTextureObject × Int)}, findEntry k l = some v → (k, v) ∈ l
  | [], h => by simp [findEntry] at h
  | (k', v') :: rest, h => by
    by_cases hk : k' = k
    · simp only [findEntry, if_pos hk, Option.some.injEq] at h
      subst hk; subst h
      exact List.mem_cons_self _ _
    · simp only [findEntry, if_neg hk] at h
      exact List.mem_cons_of_mem _ (findEntry_mem h)

theorem findEntry_none_of_keys_ne {k : vtkTextureObject} :
    ∀ {l : List (vtkTextureObject × Int)}, (∀ e ∈ l, e.1 ≠ k) → findEntry k l = none
  | [], _ => rfl
  | (k', v') :: rest, h => by
    have hk : k' ≠ k := h (k', v') (List.mem_cons_self _ _)
    simp only [findEntry, if_neg hk]
    exact findEntry_none_of_keys_ne (fun e he => h e (List.mem_cons_of_mem _ he))

theorem keys_ne_of_findEntry_none {k : vtkTextureObject} :
    ∀ {l : List (vtkTextureObject × Int)}, findEntry k l = none → ∀ e ∈ l, e.1 ≠ k
  | [], _, e, he => by simp at he
  | (k', v') :: rest, h, e, he => by
    by_cases hk : k' = k
    · simp [findEntry, hk] at h
    · simp only [findEntry, if_neg hk] at h
      rcases List.mem_cons.1 he with rfl | he
      · exact hk
      · exact keys_ne_of_findEntry_none h e he

theorem findEntry_of_mem {k : vtkTextureObject} {v : Int} :
    ∀ {l : List (vtkTextureObject × Int)}, KeysAscending l → (k, v) ∈ l →
      findEntry k l = some v
  | [], _, h => by simp at h
  | (k', v') :: rest, hl, h => by
    have hl' : (∀ b ∈ rest, k' < b.1) ∧ KeysAscending rest := by
      simpa [KeysAscending] using hl
    rcases List.mem_cons.1 h with heq | hmem
    · cases heq
      simp [findEntry]
    · have hk : k' ≠ k := ne_of_lt (hl'.1 (k, v) hmem)
      simp only [findEntry, if_neg hk]
      exact findEntry_of_mem hl'.2 hmem

theorem findEntry_insertEntry_self {k : vtkTextureObject} {v : Int} :
    ∀ {l : List (vtkTextureObject × Int)}, findEntry k l = none →
      findEntry k (insertEntry k v l) = some v
  | [], _ => by simp [insertEntry, findEntry]
  | (k', v') :: rest, h => by
    by_cases hk : k' = k
    · simp [findEntry, hk] at h
    · simp only [findEntry, if_neg hk] at h
      by_cases h1 : k < k'
      · simp [insertEntry, h1, findEntry]
      · have h2 : ¬ k = k' := fun e => hk e.symm
        simp only [insertEntry, if_neg h1, if_neg h2, findEntry, if_neg hk]
        exact findEntry_insertEntry_self h

theorem findEntry_insertEntry_of_ne {k k0 : vtkTextureObject} {v : Int} (hne : k0 ≠ k) :
    ∀ l : List (vtkTextureObject × Int),
      findEntry k0 (insertEntry k v l) = findEntry k0 l
  | [] => by simp [insertEntry, findEntry, Ne.symm hne]
  | (k', v') :: rest => by
    by_cases h1 : k < k'
    · simp only [insertEntry, if_pos h1]
      rw [findEntry, if_neg (Ne.symm hne)]
    · by_cases h2 : k = k'
      · simp only [insertEntry, if_neg h1, if_pos h2]
      · simp only [insertEntry, if_neg h1, if_neg h2, findEntry]
        rw [findEntry_insertEntry_of_ne hne rest]

theorem insertEntry_perm {k : vtkTextureObject} {v : Int} :
    ∀ {l : List (vtkTextureObject × Int)}, findEntry k l = none →
      (insertEntry k v l).Perm ((k, v) :: l)
  | [], _ => by simp [insertEntry]
  | (k', v') :: rest, h => by
    by_cases hk : k' = k
    · simp [findEntry, hk] at h
    · simp only [findEntry, if_neg hk] at h
      by_cases h1 : k < k'
      · simp only [insertEntry, if_pos h1]
        exact List.Perm.refl _
      · have h2 : ¬ k = k' := fun e => hk e.symm
        simp only [insertEntry, if_neg h1, if_neg h2]
        exact ((insertEntry_perm h).cons (k', v')).trans (List.Perm.swap _ _ _)

theorem findEntry_eraseEntry_self {k : vtkTextureObject} :
    ∀ {l : List (vtkTextureObject × Int)}, KeysAscending l →
      findEntry k (eraseEntry k l) = none
  | [], _ => rfl
  | (k', v') :: rest, hl => by
    have hl' : (∀ b ∈ rest, k' < b.1) ∧ KeysAscending rest := by
      simpa [KeysAscending] using hl
    by_cases hk : k' = k
    · simp only [eraseEntry, if_pos hk]
      exact findEntry_none_of_keys_ne (fun e he => hk ▸ ne_of_gt (hl'.1 e he))
    · simp only [eraseEntry, if_neg hk, findEntry]
      exact findEntry_eraseEntry_self hl'.2

theorem findEntry_eraseEntry_of_ne {k k0 : vtkTextureObject} (hne : k0 ≠ k) :
    ∀ l : List (vtkTextureObject × Int),
      findEntry k0 (eraseEntry k l) = findEntry k0 l
  | [] => rfl
  | (k', v') :: rest => by
    by_cases hk : k' = k
    · have hk0 : ¬ k' = k0 := fun e => hne (e.symm.trans hk)
      simp only [eraseEntry, if_pos hk, findEntry, if_neg hk0]
    · simp only [eraseEntry, if_neg hk, findEntry]
      rw [findEntry_eraseEntry_of_ne hne rest]

theorem eraseEntry_perm {k : vtkTextureObject} {v : Int} :
    ∀ {l : List (vtkTextureObject × Int)}, findEntry k l = some v →
      l.Perm ((k, v) :: eraseEntry k l)
  | [], h => by simp [findEntry] at h
  | (k', v') :: rest, h => by
    by_cases hk : k' = k
    · simp only [findEntry, if_pos hk, Option.some.injEq] at h
      subst hk; subst h
      simp only [eraseEntry, if_true]
      exact List.Perm.refl _
    · simp only [findEntry, if_neg hk] at h
      simp only [eraseEntry, if_neg hk]
      exact ((eraseEntry_perm h).cons (k', v')).trans (List.Perm.swap _ _ _)

/-! ## The three branches of `ActivateTexture`, the two of `DeactivateTexture` -/

theorem GetTextureUnitManager_calls (w : vtkOpenGLRenderWindow) :
    w.GetTextureUnitManager.1.Calls = poolCalls w := by
  unfold GetTextureUnitManager poolCalls
  cases w.TextureUnitManager <;> rfl

theorem ActivateTexture_of_known {policy : AllocatePolicy} {w : vtkOpenGLRenderWindow}
    {t : vtkTextureObject} {u : Int} (hfound : w.TextureResourceIds.find t = some u) :
    w.ActivateTexture policy t = w.glActiveTexture (GL_TEXTURE0 + u) := by
  unfold ActivateTexture
  rw [hfound]

theorem ActivateTexture_of_failure {policy : AllocatePolicy} {w : vtkOpenGLRenderWindow}
    {t : vtkTextureObject} (hnew : w.TextureResourceIds.find t = none)
    (hfail : (w.GetTextureUnitManager.1.Allocate policy).1 < 0) :
    w.ActivateTexture policy t =
      { w with
        TextureUnitManager := some (w.GetTextureUnitManager.1.Allocate policy).2
        ErrorLog := "Hardware does not support the number of textures defined." ::
          w.ErrorLog } := by
  unfold ActivateTexture
  rw [hnew]
  simp only [if_pos hfail]
  unfold GetTextureUnitManager vtkErrorMacro
  cases w.TextureUnitManager <;> rfl

theorem ActivateTexture_of_unit {policy : AllocatePolicy} {w : vtkOpenGLRenderWindow}
    {t : vtkTextureObject} (hnew : w.TextureResourceIds.find t = none)
    (hunit : 0 ≤ (w.GetTextureUnitManager.1.Allocate policy).1) :
    w.ActivateTexture policy t =
      { w with
        TextureResourceIds :=
          w.TextureResourceIds.insert t (w.GetTextureUnitManager.1.Allocate policy).1
        TextureUnitManager := some (w.GetTextureUnitManager.1.Allocate policy).2
        Context :=
          ⟨GL_TEXTURE0 + (w.GetTextureUnitManager.1.Allocate policy).1,
            (GL_TEXTURE0 + (w.GetTextureUnitManager.1.Allocate policy).1) ::
              w.Context.ActiveTextureCalls⟩ } := by
  unfold ActivateTexture
  rw [hnew]
  simp only [if_neg (not_lt.2 hunit)]
  unfold GetTextureUnitManager glActiveTexture
  cases w.TextureUnitManager <;> rfl

theorem DeactivateTexture_of_known {w : vtkOpenGLRenderWindow} {t : vtkTextureObject}
    {u : Int} (hfound : w.TextureResourceIds.find t = some u) :
    w.DeactivateTexture t =
      { w with
        TextureResourceIds := w.TextureResourceIds.erase t
        TextureUnitManager := some (w.GetTextureUnitManager.1.Free u) } := by
  unfold DeactivateTexture
  rw [hfound]
  unfold GetTextureUnitManager
  cases w.TextureUnitManager <;> rfl

theorem DeactivateTexture_of_unknown {w : vtkOpenGLRenderWindow} {t : vtkTextureObject}
    (hnew : w.TextureResourceIds.find t = none) : w.DeactivateTexture t = w := by
  unfold DeactivateTexture
  rw [hnew]

theorem GetTextureUnitForTexture_of_known {w : vtkOpenGLRenderWindow} {t : vtkTextureObject}
    {u : Int} (hfound : w.TextureResourceIds.find t = some u) :
    w.GetTextureUnitForTexture t = (u, w) := by
  unfold GetTextureUnitForTexture
  rw [hfound]

theorem GetTextureUnitForTexture_of_unknown {w : vtkOpenGLRenderWindow}
    {t : vtkTextureObject} (hnew : w.TextureResourceIds.find t = none) :
    w.GetTextureUnitForTexture t = (-1, w) := by
  unfold GetTextureUnitForTexture
  rw [hnew]

/-! ## Invariants of the texture bookkeeping -/

theorem Allocate_result (policy : AllocatePolicy) (w : vtkOpenGLRenderWindow) :
    (w.GetTextureUnitManager.1.Allocate policy).1 = policy (poolCalls w) := by
  unfold vtkTextureUnitManager.Allocate
  rw [GetTextureUnitManager_calls]

theorem Allocate_calls (policy : AllocatePolicy) (w : vtkOpenGLRenderWindow) :
    (w.GetTextureUnitManager.1.Allocate policy).2.Calls =
      PoolCall.Allocate (policy (poolCalls w)) :: poolCalls w := by
  unfold vtkTextureUnitManager.Allocate
  rw [GetTextureUnitManager_calls]

theorem Free_calls (w : vtkOpenGLRenderWindow) (u : Int) :
    (w.GetTextureUnitManager.1.Free u).Calls = PoolCall.Free u :: poolCalls w := by
  unfold vtkTextureUnitManager.Free
  rw [GetTextureUnitManager_calls]

theorem find_empty (t : vtkTextureObject) : StdMap.empty.find t = none := rfl

theorem UnitsOwned_of_empty {w : vtkOpenGLRenderWindow}
    (hempty : w.TextureResourceIds = StdMap.empty) : UnitsOwned w := by
  unfold UnitsOwned
  rw [hempty]
  refine ⟨?_, ?_⟩
  · intro t u h
    rw [find_empty] at h
    cases h
  · intro t1 t2 u h
    rw [find_empty] at h
    cases h

theorem UnitsOwned_ActivateTexture {policy : AllocatePolicy} (hpool : PoolContract policy)
    {w : vtkOpenGLRenderWindow} (hinv : UnitsOwned w) (t : vtkTextureObject) :
    UnitsOwned (w.ActivateTexture policy t) := by
  obtain ⟨hown, hinj⟩ := hinv
  cases hfound : w.TextureResourceIds.find t with
  | some u =>
    rw [ActivateTexture_of_known hfound]
    exact ⟨hown, hinj⟩
  | none =>
    by_cases hfail : (w.GetTextureUnitManager.1.Allocate policy).1 < 0
    · rw [ActivateTexture_of_failure hfound hfail]
      refine ⟨?_, hinj⟩
      intro t0 u0 h0
      have hmem := hown t0 u0 h0
      show u0 ∈ handedOut (w.GetTextureUnitManager.1.Allocate policy).2.Calls
      rw [Allocate_calls]
      rw [Allocate_result] at hfail
      simp only [handedOut, if_pos hfail]
      exact hmem
    · have hunit : 0 ≤ (w.GetTextureUnitManager.1.Allocate policy).1 := not_lt.1 hfail
      rw [ActivateTexture_of_unit hfound hunit]
      have hfresh : policy (poolCalls w) ∉ handedOut (poolCalls w) := by
        rcases hpool (poolCalls w) with hneg | hfresh
        · rw [Allocate_result] at hfail
          exact absurd hneg hfail
        · exact hfresh
      have hlook : ∀ t0 u0,
          findEntry t0 (insertEntry t (w.GetTextureUnitManager.1.Allocate policy).1
            w.TextureResourceIds.entries) = some u0 →
          (t0 = t ∧ u0 = policy (poolCalls w)) ∨
            (t0 ≠ t ∧ w.TextureResourceIds.find t0 = some u0) := by
        intro t0 u0 h0
        by_cases ht : t0 = t
        · subst ht
          rw [findEntry_insertEntry_self hfound, Allocate_result] at h0
          exact Or.inl ⟨rfl, (Option.some.inj h0).symm⟩
        · rw [findEntry_insertEntry_of_ne ht] at h0
          exact Or.inr ⟨ht, h0⟩
      refine ⟨?_, ?_⟩
      · intro t0 u0 h0
        show u0 ∈ handedOut (w.GetTextureUnitManager.1.Allocate policy).2.Calls
        rw [Allocate_calls]
        rw [Allocate_result] at hfail
        simp only [handedOut, if_neg hfail]
        rcases hlook t0 u0 h0 with ⟨_, hu⟩ | ⟨_, hold⟩
        · rw [hu]
          exact List.mem_cons_self _ _
        · exact List.mem_cons_of_mem _ (hown t0 u0 hold)
      · intro t1 t2 u0 h1 h2
        rcases hlook t1 u0 h1 with ⟨ht1, hu1⟩ | ⟨_, hold1⟩
        · rcases hlook t2 u0 h2 with ⟨ht2, _⟩ | ⟨_, hold2⟩
          · rw [ht1, ht2]
          · exact absurd (hu1 ▸ hown t2 u0 hold2) hfresh
        · rcases hlook t2 u0 h2 with ⟨_, hu2⟩ | ⟨_, hold2⟩
          · exact absurd (hu2 ▸ hown t1 u0 hold1) hfresh
          · exact hinj t1 t2 u0 hold1 hold2

theorem UnitsOwned_DeactivateTexture {w : vtkOpenGLRenderWindow} (hinv : UnitsOwned w)
    (t : vtkTextureObject) : UnitsOwned (w.DeactivateTexture t) := by
  obtain ⟨hown, hinj⟩ := hinv
  cases hfound : w.TextureResourceIds.find t with
  | none =>
    rw [DeactivateTexture_of_unknown hfound]
    exact ⟨hown, hinj⟩
  | some u =>
    rw [DeactivateTexture_of_known hfound]
    have hlook : ∀ t0 u0, findEntry t0 (eraseEntry t w.TextureResourceIds.entries) = some u0 →
        t0 ≠ t ∧ w.TextureResourceIds.find t0 = some u0 := by
      intro t0 u0 h0
      by_cases ht : t0 = t
      · subst ht
        rw [findEntry_eraseEntry_self w.TextureResourceIds.ordered] at h0
        cases h0
      · rw [findEntry_eraseEntry_of_ne ht] at h0
        exact ⟨ht, h0⟩
    refine ⟨?_, ?_⟩
    · intro t0 u0 h0
      obtain ⟨ht, hold⟩ := hlook t0 u0 h0
      show u0 ∈ handedOut (w.GetTextureUnitManager.1.Free u).Calls
      rw [Free_calls]
      simp only [handedOut, List.mem_filter, decide_eq_true_eq]
      refine ⟨hown t0 u0 hold, ?_⟩
      intro hu
      exact ht (hinj t0 t u (hu ▸ hold) hfound)
    · intro t1 t2 u0 h1 h2
      exact hinj t1 t2 u0 (hlook t1 u0 h1).2 (hlook t2 u0 h2).2

theorem UnitsOwned_runCalls {policy : AllocatePolicy} (hpool : PoolContract policy) :
    ∀ (calls : List TextureCall) {w : vtkOpenGLRenderWindow}, UnitsOwned w →
      UnitsOwned (runCalls policy w calls)
  | [], _, hinv => hinv
  | TextureCall.Activate t :: rest, _, hinv =>
    UnitsOwned_runCalls hpool rest (UnitsOwned_ActivateTexture hpool hinv t)
  | TextureCall.Deactivate t :: rest, _, hinv =>
    UnitsOwned_runCalls hpool rest (UnitsOwned_DeactivateTexture hinv t)

/-- Every unit stored in the table is non-negative. -/
theorem unitsNonneg_ActivateTexture {policy : AllocatePolicy} {w : vtkOpenGLRenderWindow}
    (hinv : ∀ e ∈ w.TextureResourceIds.entries, 0 ≤ e.2) (t : vtkTextureObject) :
    ∀ e ∈ (w.ActivateTexture policy t).TextureResourceIds.entries, 0 ≤ e.2 := by
  cases hfound : w.TextureResourceIds.find t with
  | some u =>
    rw [ActivateTexture_of_known hfound]
    exact hinv
  | none =>
    by_cases hfail : (w.GetTextureUnitManager.1.Allocate policy).1 < 0
    · rw [ActivateTexture_of_failure hfound hfail]
      exact hinv
    · have hunit : 0 ≤ (w.GetTextureUnitManager.1.Allocate policy).1 := not_lt.1 hfail
      rw [ActivateTexture_of_unit hfound hunit]
      intro e he
      have hmem : e ∈ (t, (w.GetTextureUnitManager.1.Allocate policy).1) ::
          w.TextureResourceIds.entries :=
        (insertEntry_perm (by exact hfound)).subset he
      rcases List.mem_cons.1 hmem with rfl | hold
      · exact hunit
      · exact hinv e hold

theorem unitsNonneg_DeactivateTexture {w : vtkOpenGLRenderWindow}
    (hinv : ∀ e ∈ w.TextureResourceIds.entries, 0 ≤ e.2) (t : vtkTextureObject) :
    ∀ e ∈ (w.DeactivateTexture t).TextureResourceIds.entries, 0 ≤ e.2 := by
  cases hfound : w.TextureResourceIds.find t with
  | none =>
    rw [DeactivateTexture_of_unknown hfound]
    exact hinv
  | some u =>
    rw [DeactivateTexture_of_known hfound]
    intro e he
    exact hinv e ((eraseEntry_perm (by exact hfound)).symm.subset (List.mem_cons_of_mem _ he))

theorem unitsNonneg_runCalls {policy : AllocatePolicy} :
    ∀ (calls : List TextureCall) {w : vtkOpenGLRenderWindow},
      (∀ e ∈ w.TextureResourceIds.entries, 0 ≤ e.2) →
      ∀ e ∈ (runCalls policy w calls).TextureResourceIds.entries, 0 ≤ e.2
  | [], _, hinv => hinv
  | TextureCall.Activate t :: rest, _, hinv =>
    unitsNonneg_runCalls rest (unitsNonneg_ActivateTexture hinv t)
  | TextureCall.Deactivate t :: rest, _, hinv =>
    unitsNonneg_runCalls rest (unitsNonneg_DeactivateTexture hinv t)

theorem find_eq_none_iff (m : StdMap) (t : vtkTextureObject) :
    m.find t = none ↔ ∀ u, (t, u) ∉ m.entries := by
  constructor
  · intro h u hmem
    exact keys_ne_of_findEntry_none h (t, u) hmem rfl
  · intro h
    refine findEntry_none_of_keys_ne ?_
    rintro ⟨k, v⟩ he hk
    simp only at hk
    subst hk
    exact h v he

theorem firstFreeUnit_contract (n : Nat) : PoolContract (firstFreeUnit n) := by
  intro calls
  unfold firstFreeUnit
  cases hfind : (List.range n).find?
      (fun i => decide ((i : Int) ∉ handedOut calls)) with
  | none =>
    left
    decide
  | some i =>
    right
    have := List.find?_some hfind
    simpa using this

/-! ## Contracts of the texture activation interface -/

/-- C1, unit uniqueness: start from any window whose `TextureResourceIds` is
empty and make any sequence of `ActivateTexture` / `DeactivateTexture` calls,
the manager's `Allocate` returning each time a negative value or a unit it has
not currently handed out. Then two different textures in the table have
different units, also as returned by `GetTextureUnitForTexture`, and a texture
in the table has exactly one unit. -/
theorem texture_units_unique (policy : AllocatePolicy) (hpool : PoolContract policy)
    (w0 : vtkOpenGLRenderWindow) (hempty : w0.TextureResourceIds = StdMap.empty)
    (calls : List TextureCall) :
    (∀ t1 t2 u1 u2, t1 ≠ t2 →
      (t1, u1) ∈ (runCalls policy w0 calls).TextureResourceIds.entries →
      (t2, u2) ∈ (runCalls policy w0 calls).TextureResourceIds.entries →
      u1 ≠ u2 ∧
      ((runCalls policy w0 calls).GetTextureUnitForTexture t1).1 ≠
        ((runCalls policy w0 calls).GetTextureUnitForTexture t2).1) ∧
    (∀ t u1 u2,
      (t, u1) ∈ (runCalls policy w0 calls).TextureResourceIds.entries →
      (t, u2) ∈ (runCalls policy w0 calls).TextureResourceIds.entries → u1 = u2) := by
  have hinv : UnitsOwned (runCalls policy w0 calls) :=
    UnitsOwned_runCalls hpool calls (UnitsOwned_of_empty hempty)
  have hordered := (runCalls policy w0 calls).TextureResourceIds.ordered
  refine ⟨?_, ?_⟩
  · intro t1 t2 u1 u2 hne h1 h2
    have hf1 : (runCalls policy w0 calls).TextureResourceIds.find t1 = some u1 :=
      findEntry_of_mem hordered h1
    have hf2 : (runCalls policy w0 calls).TextureResourceIds.find t2 = some u2 :=
      findEntry_of_mem hordered h2
    have hu : u1 ≠ u2 := by
      intro heq
      subst heq
      exact hne (hinv.2 t1 t2 u1 hf1 hf2)
    rw [GetTextureUnitForTexture_of_known hf1, GetTextureUnitForTexture_of_known hf2]
    exact ⟨hu, hu⟩
  · intro t u1 u2 h1 h2
    have hf1 := findEntry_of_mem hordered h1
    have hf2 := findEntry_of_mem hordered h2
    rw [hf1] at hf2
    exact Option.some.inj hf2

/-- Two units and the calls activate 5, 3, 9 (fails), deactivate 5, activate 9:
textures 3 and 9 end with units 1 and 0. -/
theorem texture_units_unique_witness :
    PoolContract (firstFreeUnit 2) ∧
    freshWindow.TextureResourceIds = StdMap.empty ∧
    (runCalls (firstFreeUnit 2) freshWindow
      [TextureCall.Activate 5, TextureCall.Activate 3, TextureCall.Activate 9,
        TextureCall.Deactivate 5, TextureCall.Activate 9]).TextureResourceIds.entries =
      [(3, 1), (9, 0)] ∧
    ((runCalls (firstFreeUnit 2) freshWindow
      [TextureCall.Activate 5, TextureCall.Activate 3, TextureCall.Activate 9,
        TextureCall.Deactivate 5, TextureCall.Activate 9]).GetTextureUnitForTexture 3).1 ≠
    ((runCalls (firstFreeUnit 2) freshWindow
      [TextureCall.Activate 5, TextureCall.Activate 3, TextureCall.Activate 9,
        TextureCall.Deactivate 5, TextureCall.Activate 9]).GetTextureUnitForTexture 9).1 :=
  ⟨firstFreeUnit_contract 2, rfl, by decide,
    ((texture_units_unique (firstFreeUnit 2) (firstFreeUnit_contract 2) freshWindow rfl
      [TextureCall.Activate 5, TextureCall.Activate 3, TextureCall.Activate 9,
        TextureCall.Deactivate 5, TextureCall.Activate 9]).1 3 9 1 0
      (by decide) (by decide) (by decide)).2⟩

/-- C2, allocator exhaustion: for a texture that is not in `TextureResourceIds`,
when the manager's `Allocate` returns a negative value, `ActivateTexture` leaves
`TextureResourceIds` as it was (the texture is still absent and
`GetTextureUnitForTexture` returns -1), leaves the OpenGL context as it was (no
`glActiveTexture` call), and reports the failure through `vtkErrorMacro`. -/
theorem ActivateTexture_pool_exhausted (policy : AllocatePolicy)
    (w : vtkOpenGLRenderWindow) (t : vtkTextureObject)
    (hnew : w.TextureResourceIds.find t = none)
    (hfail : (w.GetTextureUnitManager.1.Allocate policy).1 < 0) :
    (w.ActivateTexture policy t).TextureResourceIds = w.TextureResourceIds ∧
    (w.ActivateTexture policy t).TextureResourceIds.find t = none ∧
    ((w.ActivateTexture policy t).GetTextureUnitForTexture t).1 = -1 ∧
    (w.ActivateTexture policy t).Context = w.Context ∧
    (w.ActivateTexture policy t).ErrorLog =
      "Hardware does not support the number of textures defined." :: w.ErrorLog := by
  rw [ActivateTexture_of_failure hnew hfail]
  refine ⟨rfl, hnew, ?_, rfl, rfl⟩
  rw [GetTextureUnitForTexture_of_unknown (by exact hnew)]

/-- Two units, both taken by textures 5 and 3: activating texture 9 fails. -/
theorem ActivateTexture_pool_exhausted_witness :
    (runCalls (firstFreeUnit 2) freshWindow
        [TextureCall.Activate 5, TextureCall.Activate 3]).TextureResourceIds.find 9 = none ∧
    ((runCalls (firstFreeUnit 2) freshWindow
        [TextureCall.Activate 5, TextureCall.Activate 3]).GetTextureUnitManager.1.Allocate
          (firstFreeUnit 2)).1 = -1 ∧
    ((runCalls (firstFreeUnit 2) freshWindow
        [TextureCall.Activate 5, TextureCall.Activate 3]).ActivateTexture
          (firstFreeUnit 2) 9).TextureResourceIds.entries = [(3, 1), (5, 0)] ∧
    ((runCalls (firstFreeUnit 2) freshWindow
        [TextureCall.Activate 5, TextureCall.Activate 3]).ActivateTexture
          (firstFreeUnit 2) 9).Context.ActiveTexture = GL_TEXTURE0 + 1 :=
  have h := ActivateTexture_pool_exhausted (firstFreeUnit 2)
    (runCalls (firstFreeUnit 2) freshWindow [TextureCall.Activate 5, TextureCall.Activate 3])
    9 (by decide) (by decide)
  ⟨by decide, by decide, by rw [h.1]; decide, by rw [h.2.2.2.1]; decide⟩

/-- C3, re-activation: for a texture that is in `TextureResourceIds` with unit
`u`, `ActivateTexture` makes `GL_TEXTURE0 + u` the active texture unit by one
`glActiveTexture` call, leaves `TextureResourceIds` as it was (the texture still
maps to `u`), and leaves the texture unit manager untouched: the member is the
same, so the manager has received neither `Allocate` nor `Free`. -/
theorem ActivateTexture_known_texture (policy : AllocatePolicy)
    (w : vtkOpenGLRenderWindow) (t : vtkTextureObject) (u : Int)
    (hfound : w.TextureResourceIds.find t = some u) :
    (w.ActivateTexture policy t).Context.ActiveTexture = GL_TEXTURE0 + u ∧
    (w.ActivateTexture policy t).Context.ActiveTextureCalls =
      (GL_TEXTURE0 + u) :: w.Context.ActiveTextureCalls ∧
    (w.ActivateTexture policy t).TextureResourceIds = w.TextureResourceIds ∧
    ((w.ActivateTexture policy t).GetTextureUnitForTexture t).1 = u ∧
    (w.ActivateTexture policy t).TextureUnitManager = w.TextureUnitManager ∧
    poolCalls (w.ActivateTexture policy t) = poolCalls w ∧
    (w.ActivateTexture policy t).ErrorLog = w.ErrorLog := by
  rw [ActivateTexture_of_known hfound]
  refine ⟨rfl, rfl, rfl, ?_, rfl, rfl, rfl⟩
  rw [GetTextureUnitForTexture_of_known (by exact hfound)]

/-- Textures 5 and 3 hold units 0 and 1: activating 5 again selects unit 0. -/
theorem ActivateTexture_known_texture_witness :
    (runCalls (firstFreeUnit 2) freshWindow
        [TextureCall.Activate 5, TextureCall.Activate 3]).TextureResourceIds.find 5 =
      some 0 ∧
    ((runCalls (firstFreeUnit 2) freshWindow
        [TextureCall.Activate 5, TextureCall.Activate 3]).ActivateTexture
          (firstFreeUnit 2) 5).Context.ActiveTexture = GL_TEXTURE0 + 0 ∧
    (poolCalls ((runCalls (firstFreeUnit 2) freshWindow
        [TextureCall.Activate 5, TextureCall.Activate 3]).ActivateTexture
          (firstFreeUnit 2) 5)).length = 2 :=
  have h := ActivateTexture_known_texture (firstFreeUnit 2)
    (runCalls (firstFreeUnit 2) freshWindow [TextureCall.Activate 5, TextureCall.Activate 3])
    5 0 (by decide)
  ⟨by decide, h.1, by rw [h.2.2.2.2.2.1]; decide⟩

/-- C4, successful activation: for a texture that is not in
`TextureResourceIds`, when the manager's `Allocate` returns a unit `u >= 0`, the
table after `ActivateTexture` is the old one plus exactly the pair (texture, u):
`GetTextureUnitForTexture` returns `u` for the texture, every other texture is
looked up as before, the entries are those of the old table and the new pair;
and `GL_TEXTURE0 + u` is the active texture unit. -/
theorem ActivateTexture_new_texture (policy : AllocatePolicy)
    (w : vtkOpenGLRenderWindow) (t : vtkTextureObject) (u : Int)
    (hnew : w.TextureResourceIds.find t = none)
    (halloc : (w.GetTextureUnitManager.1.Allocate policy).1 = u) (hunit : 0 ≤ u) :
    ((w.ActivateTexture policy t).GetTextureUnitForTexture t).1 = u ∧
    (w.ActivateTexture policy t).TextureResourceIds.find t = some u ∧
    (∀ t0, t0 ≠ t →
      (w.ActivateTexture policy t).TextureResourceIds.find t0 =
        w.TextureResourceIds.find t0) ∧
    (w.ActivateTexture policy t).TextureResourceIds.entries.Perm
      ((t, u) :: w.TextureResourceIds.entries) ∧
    (w.ActivateTexture policy t).Context.ActiveTexture = GL_TEXTURE0 + u := by
  subst halloc
  have hself : (w.ActivateTexture policy t).TextureResourceIds.find t =
      some (w.GetTextureUnitManager.1.Allocate policy).1 := by
    rw [ActivateTexture_of_unit hnew hunit]
    exact findEntry_insertEntry_self hnew
  refine ⟨?_, hself, ?_, ?_, ?_⟩
  · rw [GetTextureUnitForTexture_of_known hself]
  · intro t0 h0
    rw [ActivateTexture_of_unit hnew hunit]
    exact findEntry_insertEntry_of_ne h0 _
  · rw [ActivateTexture_of_unit hnew hunit]
    exact insertEntry_perm hnew
  · rw [ActivateTexture_of_unit hnew hunit]

/-- Texture 5 holds unit 0 of three: activating texture 3 records (3, 1). -/
theorem ActivateTexture_new_texture_witness :
    (runCalls (firstFreeUnit 3) freshWindow
        [TextureCall.Activate 5]).TextureResourceIds.entries = [(5, 0)] ∧
    ((runCalls (firstFreeUnit 3) freshWindow
        [TextureCall.Activate 5]).ActivateTexture (firstFreeUnit 3) 3).TextureResourceIds.find 3 =
      some 1 ∧
    ((runCalls (firstFreeUnit 3) freshWindow
        [TextureCall.Activate 5]).ActivateTexture (firstFreeUnit 3) 3).Context.ActiveTexture =
      GL_TEXTURE0 + 1 :=
  have h := ActivateTexture_new_texture (firstFreeUnit 3)
    (runCalls (firstFreeUnit 3) freshWindow [TextureCall.Activate 5]) 3 1
    (by decide) (by decide) (by decide)
  ⟨by decide, h.2.1, h.2.2.2.2⟩

/-- C5: after `DeactivateTexture(t)`, for a texture in the table or not,
`GetTextureUnitForTexture(t)` returns the not-found value -1. -/
theorem GetTextureUnitForTexture_after_Deactivate (w : vtkOpenGLRenderWindow)
    (t : vtkTextureObject) :
    ((w.DeactivateTexture t).GetTextureUnitForTexture t).1 = -1 := by
  have habsent : (w.DeactivateTexture t).TextureResourceIds.find t = none := by
    cases hfound : w.TextureResourceIds.find t with
    | none =>
      rw [DeactivateTexture_of_unknown hfound]
      exact hfound
    | some u =>
      rw [DeactivateTexture_of_known hfound]
      exact findEntry_eraseEntry_self w.TextureResourceIds.ordered
  rw [GetTextureUnitForTexture_of_unknown habsent]

/-- C6, postcondition of `DeactivateTexture(t)`. If `t` is in the table with
unit `u`: the manager afterwards is the one `GetTextureUnitManager` returns with
the one call `Free(u)` added, `t` is no longer in the table, every other texture
is looked up as before, and the old entries are the new ones plus (t, u). If `t`
is not in the table the window is unchanged, manager included. In both cases the
OpenGL context (active texture unit, `glActiveTexture` calls) is unchanged. -/
theorem DeactivateTexture_postcondition (w : vtkOpenGLRenderWindow)
    (t : vtkTextureObject) :
    (∀ u, w.TextureResourceIds.find t = some u →
      (w.DeactivateTexture t).TextureUnitManager =
        some (w.GetTextureUnitManager.1.Free u) ∧
      poolCalls (w.DeactivateTexture t) = PoolCall.Free u :: poolCalls w ∧
      (w.DeactivateTexture t).TextureResourceIds.find t = none ∧
      (∀ t0, t0 ≠ t →
        (w.DeactivateTexture t).TextureResourceIds.find t0 =
          w.TextureResourceIds.find t0) ∧
      w.TextureResourceIds.entries.Perm
        ((t, u) :: (w.DeactivateTexture t).TextureResourceIds.entries)) ∧
    (w.TextureResourceIds.find t = none → w.DeactivateTexture t = w) ∧
    (w.DeactivateTexture t).Context = w.Context := by
  refine ⟨?_, fun hnew => DeactivateTexture_of_unknown hnew, ?_⟩
  · intro u hfound
    rw [DeactivateTexture_of_known hfound]
    refine ⟨rfl, ?_, ?_, ?_, ?_⟩
    · show (w.GetTextureUnitManager.1.Free u).Calls = _
      rw [← GetTextureUnitManager_calls w]
      rfl
    · exact findEntry_eraseEntry_self w.TextureResourceIds.ordered
    · intro t0 h0
      exact findEntry_eraseEntry_of_ne h0 _
    · exact eraseEntry_perm hfound
  · cases hfound : w.TextureResourceIds.find t with
    | none => rw [DeactivateTexture_of_unknown hfound]
    | some u => rw [DeactivateTexture_of_known hfound]

/-- Textures 5 and 3 hold units 0 and 1: deactivating 5 frees unit 0 and leaves
(3, 1); deactivating the unknown texture 9 changes nothing. -/
theorem DeactivateTexture_postcondition_witness :
    (runCalls (firstFreeUnit 2) freshWindow
      [TextureCall.Activate 5, TextureCall.Activate 3]).TextureResourceIds.find 5 = some 0 ∧
    poolCalls ((runCalls (firstFreeUnit 2) freshWindow
      [TextureCall.Activate 5, TextureCall.Activate 3]).DeactivateTexture 5) =
      [PoolCall.Free 0, PoolCall.Allocate 1, PoolCall.Allocate 0] ∧
    ((runCalls (firstFreeUnit 2) freshWindow
      [TextureCall.Activate 5, TextureCall.Activate 3]).DeactivateTexture
        5).TextureResourceIds.entries = [(3, 1)] ∧
    (runCalls (firstFreeUnit 2) freshWindow
      [TextureCall.Activate 5, TextureCall.Activate 3]).DeactivateTexture 9 =
      runCalls (firstFreeUnit 2) freshWindow
        [TextureCall.Activate 5, TextureCall.Activate 3] :=
  ⟨by decide,
    by
      rw [((DeactivateTexture_postcondition (runCalls (firstFreeUnit 2) freshWindow
        [TextureCall.Activate 5, TextureCall.Activate 3]) 5).1 0 (by decide)).2.1]
      decide,
    by decide,
    (DeactivateTexture_postcondition (runCalls (firstFreeUnit 2) freshWindow
      [TextureCall.Activate 5, TextureCall.Activate 3]) 9).2.1 (by decide)⟩

/-- C7, the not-found value is unambiguous: start from any window whose
`TextureResourceIds` is empty and make any sequence of `ActivateTexture` /
`DeactivateTexture` calls, whatever the manager's `Allocate` returns. Then every
unit stored in the table is >= 0, `GetTextureUnitForTexture(t)` returns -1
exactly when `t` has no entry in the table, returns the stored unit when it has
one, and leaves the window (the table included) as it was. -/
theorem GetTextureUnitForTexture_sentinel (policy : AllocatePolicy)
    (w0 : vtkOpenGLRenderWindow) (hempty : w0.TextureResourceIds = StdMap.empty)
    (calls : List TextureCall) :
    (∀ e ∈ (runCalls policy w0 calls).TextureResourceIds.entries, 0 ≤ e.2) ∧
    (∀ t, ((runCalls policy w0 calls).GetTextureUnitForTexture t).1 = -1 ↔
      ∀ u, (t, u) ∉ (runCalls policy w0 calls).TextureResourceIds.entries) ∧
    (∀ t u, (t, u) ∈ (runCalls policy w0 calls).TextureResourceIds.entries →
      ((runCalls policy w0 calls).GetTextureUnitForTexture t).1 = u) ∧
    (∀ t, ((runCalls policy w0 calls).GetTextureUnitForTexture t).2 =
      runCalls policy w0 calls) := by
  have hnonneg : ∀ e ∈ (runCalls policy w0 calls).TextureResourceIds.entries, 0 ≤ e.2 := by
    refine unitsNonneg_runCalls calls ?_
    rw [hempty]
    intro e he
    simp [StdMap.empty] at he
  have hordered := (runCalls policy w0 calls).TextureResourceIds.ordered
  refine ⟨hnonneg, ?_, ?_, ?_⟩
  · intro t
    rw [← find_eq_none_iff]
    cases hfound : (runCalls policy w0 calls).TextureResourceIds.find t with
    | none =>
      rw [GetTextureUnitForTexture_of_unknown hfound]
      simp
    | some u =>
      rw [GetTextureUnitForTexture_of_known hfound]
      have hu : 0 ≤ u := hnonneg (t, u) (findEntry_mem hfound)
      constructor
      · intro hneg
        simp only at hneg
        omega
      · intro h
        cases h
  · intro t u hmem
    rw [GetTextureUnitForTexture_of_known (findEntry_of_mem hordered hmem)]
  · intro t
    cases hfound : (runCalls policy w0 calls).TextureResourceIds.find t with
    | none => rw [GetTextureUnitForTexture_of_unknown hfound]
    | some u => rw [GetTextureUnitForTexture_of_known hfound]

/-- A pool of two units, the third activation fails: the table is [(3, 1), (5, 0)],
texture 9 is looked up as -1 and texture 3 as 1. -/
theorem GetTextureUnitForTexture_sentinel_witness :
    freshWindow.TextureResourceIds = StdMap.empty ∧
    (runCalls (firstFreeUnit 2) freshWindow
      [TextureCall.Activate 5, TextureCall.Activate 3,
        TextureCall.Activate 9]).TextureResourceIds.entries = [(3, 1), (5, 0)] ∧
    ((runCalls (firstFreeUnit 2) freshWindow
      [TextureCall.Activate 5, TextureCall.Activate 3,
        TextureCall.Activate 9]).GetTextureUnitForTexture 3).1 = 1 ∧
    ∀ e ∈ (runCalls (firstFreeUnit 2) freshWindow
      [TextureCall.Activate 5, TextureCall.Activate 3,
        TextureCall.Activate 9]).TextureResourceIds.entries, 0 ≤ e.2 :=
  ⟨rfl, by decide,
    (GetTextureUnitForTexture_sentinel (firstFreeUnit 2) freshWindow rfl
      [TextureCall.Activate 5, TextureCall.Activate 3, TextureCall.Activate 9]).2.2.1 3 1
      (by decide),
    (GetTextureUnitForTexture_sentinel (firstFreeUnit 2) freshWindow rfl
      [TextureCall.Activate 5, TextureCall.Activate 3, TextureCall.Activate 9]).1⟩

/-! ## Stereo state transitions -/

theorem crystal_eyes_ne_of_mem (c : StereoTypes) {type : Int}
    (hmode : type ∈ [c.VTK_STEREO_RED_BLUE, c.VTK_STEREO_ANAGLYPH, c.VTK_STEREO_DRESDEN,
      c.VTK_STEREO_INTERLACED, c.VTK_STEREO_CHECKERBOARD,
      c.VTK_STEREO_SPLITVIEWPORT_HORIZONTAL]) :
    type ≠ c.VTK_STEREO_CRYSTAL_EYES := by
  intro heq
  have hd := (List.nodup_cons.1 c.distinct).1
  exact hd (heq ▸ hmode)

/-- The first `switch` of `StereoUpdate`, taken when stereo is requested and
not set up: nothing for crystal eyes, status 1 for the six other labels,
nothing for a value that is no label. -/
theorem StereoUpdate_of_rising (c : StereoTypes) (w : vtkOpenGLRenderWindow)
    (hrender : w.StereoRender ≠ 0) (hstatus : w.StereoStatus = 0) :
    StereoUpdate c w =
      if w.StereoType = c.VTK_STEREO_CRYSTAL_EYES then w
      else if w.StereoType ∈ [c.VTK_STEREO_RED_BLUE, c.VTK_STEREO_ANAGLYPH,
          c.VTK_STEREO_DRESDEN, c.VTK_STEREO_INTERLACED, c.VTK_STEREO_CHECKERBOARD,
          c.VTK_STEREO_SPLITVIEWPORT_HORIZONTAL] then
        { w with StereoStatus := 1 }
      else w := by
  unfold StereoUpdate
  rw [if_pos ⟨hrender, hstatus⟩]
  simp only [List.mem_cons, List.mem_singleton, List.not_mem_nil, or_false]
  split_ifs <;> first | rfl | (exfalso; tauto)

/-- C8, stereo rising edge: with `StereoRender` on and `StereoStatus` 0,
`StereoUpdate` sets `StereoStatus` to 1 when `StereoType` is red-blue, anaglyph,
Dresden, interlaced, checkerboard or split-viewport-horizontal. -/
theorem StereoUpdate_rising_edge (c : StereoTypes) (w : vtkOpenGLRenderWindow)
    (hrender : w.StereoRender ≠ 0) (hstatus : w.StereoStatus = 0)
    (hmode : w.StereoType ∈ [c.VTK_STEREO_RED_BLUE, c.VTK_STEREO_ANAGLYPH,
      c.VTK_STEREO_DRESDEN, c.VTK_STEREO_INTERLACED, c.VTK_STEREO_CHECKERBOARD,
      c.VTK_STEREO_SPLITVIEWPORT_HORIZONTAL]) :
    (StereoUpdate c w).StereoStatus = 1 := by
  rw [StereoUpdate_of_rising c w hrender hstatus,
    if_neg (crystal_eyes_ne_of_mem c hmode), if_pos hmode]

/-- Anaglyph (7) with stereo requested and not yet set up: the status becomes 1. -/
theorem StereoUpdate_rising_edge_witness :
    (stereoWindow 1 0 7).StereoRender ≠ 0 ∧ (stereoWindow 1 0 7).StereoStatus = 0 ∧
    (StereoUpdate exampleStereoTypes (stereoWindow 1 0 7)).StereoStatus = 1 :=
  ⟨by decide, by decide,
    StereoUpdate_rising_edge exampleStereoTypes (stereoWindow 1 0 7)
      (by decide) (by decide) (by decide)⟩

/-- C9, crystal-eyes asymmetry: with `StereoType` crystal eyes, `StereoRender`
on and `StereoStatus` 0, any number of `StereoUpdate` calls leaves the window as
it was, `StereoStatus` still 0; and among the seven handled modes crystal eyes
is the only one for which `StereoUpdate` leaves `StereoStatus` at 0 on the
rising edge. -/
theorem StereoUpdate_crystal_eyes (c : StereoTypes) (w : vtkOpenGLRenderWindow)
    (hrender : w.StereoRender ≠ 0) (hstatus : w.StereoStatus = 0)
    (hmode : w.StereoType = c.VTK_STEREO_CRYSTAL_EYES) (n : Nat) :
    StereoUpdateTimes c n w = w ∧
    (StereoUpdateTimes c n w).StereoStatus = 0 ∧
    (∀ w1 : vtkOpenGLRenderWindow, w1.StereoRender ≠ 0 → w1.StereoStatus = 0 →
      w1.StereoType ∈ [c.VTK_STEREO_CRYSTAL_EYES, c.VTK_STEREO_RED_BLUE,
        c.VTK_STEREO_ANAGLYPH, c.VTK_STEREO_DRESDEN, c.VTK_STEREO_INTERLACED,
        c.VTK_STEREO_CHECKERBOARD, c.VTK_STEREO_SPLITVIEWPORT_HORIZONTAL] →
      ((StereoUpdate c w1).StereoStatus = 0 ↔
        w1.StereoType = c.VTK_STEREO_CRYSTAL_EYES)) := by
  have hone : StereoUpdate c w = w := by
    rw [StereoUpdate_of_rising c w hrender hstatus, if_pos hmode]
  have hall : StereoUpdateTimes c n w = w := by
    induction n with
    | zero => rfl
    | succ k ih =>
      show StereoUpdateTimes c k (StereoUpdate c w) = w
      rw [hone, ih]
  refine ⟨hall, by rw [hall]; exact hstatus, ?_⟩
  intro w1 hr1 hs1 hm1
  constructor
  · intro hzero
    rcases List.mem_cons.1 hm1 with hce | hrest
    · exact hce
    · rw [StereoUpdate_of_rising c w1 hr1 hs1,
        if_neg (crystal_eyes_ne_of_mem c hrest), if_pos hrest] at hzero
      exact absurd hzero (show ¬ (1 : Int) = 0 by decide)
  · intro hce
    rw [StereoUpdate_of_rising c w1 hr1 hs1, if_pos hce]
    exact hs1

/-- Crystal eyes (1) with stereo requested: five calls leave the status at 0. -/
theorem StereoUpdate_crystal_eyes_witness :
    (stereoWindow 1 0 1).StereoType = exampleStereoTypes.VTK_STEREO_CRYSTAL_EYES ∧
    (StereoUpdateTimes exampleStereoTypes 5 (stereoWindow 1 0 1)).StereoStatus = 0 :=
  ⟨by decide,
    (StereoUpdate_crystal_eyes exampleStereoTypes (stereoWindow 1 0 1)
      (by decide) (by decide) (by decide) 5).2.1⟩

/-- C10, stereo falling edge: with `StereoRender` off and `StereoStatus`
non-zero, `StereoUpdate` sets `StereoStatus` to 0 for each of the seven handled
modes, crystal eyes included. -/
theorem StereoUpdate_falling_edge (c : StereoTypes) (w : vtkOpenGLRenderWindow)
    (hrender : w.StereoRender = 0) (hstatus : w.StereoStatus ≠ 0)
    (hmode : w.StereoType ∈ [c.VTK_STEREO_CRYSTAL_EYES, c.VTK_STEREO_RED_BLUE,
      c.VTK_STEREO_ANAGLYPH, c.VTK_STEREO_DRESDEN, c.VTK_STEREO_INTERLACED,
      c.VTK_STEREO_CHECKERBOARD, c.VTK_STEREO_SPLITVIEWPORT_HORIZONTAL]) :
    (StereoUpdate c w).StereoStatus = 0 := by
  simp only [List.mem_cons, List.mem_singleton, List.not_mem_nil, or_false] at hmode
  have hnot : ¬ (w.StereoRender ≠ 0 ∧ w.StereoStatus = 0) := fun h => hstatus h.2
  unfold StereoUpdate
  rw [if_neg hnot, if_pos ⟨hrender, hstatus⟩]
  split_ifs <;> first | rfl | (exfalso; tauto)

/-- Crystal eyes (1) and checkerboard (8), stereo switched off while set up:
the status returns to 0. -/
theorem StereoUpdate_falling_edge_witness :
    (stereoWindow 0 1 1).StereoRender = 0 ∧ (stereoWindow 0 1 1).StereoStatus ≠ 0 ∧
    (StereoUpdate exampleStereoTypes (stereoWindow 0 1 1)).StereoStatus = 0 ∧
    (StereoUpdate exampleStereoTypes (stereoWindow 0 1 8)).StereoStatus = 0 :=
  ⟨by decide, by decide,
    StereoUpdate_falling_edge exampleStereoTypes (stereoWindow 0 1 1)
      (by decide) (by decide) (by decide),
    StereoUpdate_falling_edge exampleStereoTypes (stereoWindow 0 1 8)
      (by decide) (by decide) (by decide)⟩

/-! ## Stereo: combinations without a transition -/

theorem StereoUpdate_of_agree (c : StereoTypes) (w : vtkOpenGLRenderWindow)
    (hagree : (w.StereoRender ≠ 0 ∧ w.StereoStatus ≠ 0) ∨
      (w.StereoRender = 0 ∧ w.StereoStatus = 0)) :
    StereoUpdate c w = w := by
  have h1 : ¬ (w.StereoRender ≠ 0 ∧ w.StereoStatus = 0) := by
    rcases hagree with ⟨_, hs⟩ | ⟨hr, _⟩
    · exact fun h => hs h.2
    · exact fun h => h.1 hr
  have h2 : ¬ (w.StereoRender = 0 ∧ w.StereoStatus ≠ 0) := by
    rcases hagree with ⟨hr, _⟩ | ⟨_, hs⟩
    · exact fun h => hr h.1
    · exact fun h => h.2 hs
  unfold StereoUpdate
  rw [if_neg h1, if_neg h2]

/-- What `StereoUpdate` can do: nothing, set the status to 1 on a rising edge,
or set it to 0 on a falling edge. -/
theorem StereoUpdate_cases (c : StereoTypes) (w : vtkOpenGLRenderWindow) :
    StereoUpdate c w = w ∨
    (w.StereoRender ≠ 0 ∧ StereoUpdate c w = { w with StereoStatus := 1 }) ∨
    (w.StereoRender = 0 ∧ StereoUpdate c w = { w with StereoStatus := 0 }) := by
  unfold StereoUpdate
  by_cases h1 : w.StereoRender ≠ 0 ∧ w.StereoStatus = 0
  · rw [if_pos h1]
    split_ifs
    all_goals first
      | exact Or.inl rfl
      | exact Or.inr (Or.inl ⟨h1.1, rfl⟩)
  · rw [if_neg h1]
    by_cases h2 : w.StereoRender = 0 ∧ w.StereoStatus ≠ 0
    · rw [if_pos h2]
      split_ifs
      all_goals first
        | exact Or.inl rfl
        | exact Or.inr (Or.inr ⟨h2.1, rfl⟩)
    · rw [if_neg h2]
      exact Or.inl rfl

theorem StereoUpdate_of_unhandled (c : StereoTypes) (w : vtkOpenGLRenderWindow)
    (hmode : w.StereoType ∉ [c.VTK_STEREO_CRYSTAL_EYES, c.VTK_STEREO_RED_BLUE,
      c.VTK_STEREO_ANAGLYPH, c.VTK_STEREO_DRESDEN, c.VTK_STEREO_INTERLACED,
      c.VTK_STEREO_CHECKERBOARD, c.VTK_STEREO_SPLITVIEWPORT_HORIZONTAL]) :
    StereoUpdate c w = w := by
  simp only [List.mem_cons, List.mem_singleton, List.not_mem_nil, or_false, not_or] at hmode
  obtain ⟨m1, m2, m3, m4, m5, m6, m7⟩ := hmode
  unfold StereoUpdate
  simp only [if_neg m1, if_neg m2, if_neg m3, if_neg m4, if_neg m5, if_neg m6, if_neg m7,
    ite_self]

/-- C11, stereo no-op combinations: for every `StereoType`, when `StereoRender`
and `StereoStatus` agree (both non-zero or both zero) `StereoUpdate` leaves
`StereoStatus`, and the whole window, as it was; in every case the window after
`StereoUpdate` differs from the one before in `StereoStatus` at most; and a
second `StereoUpdate` changes nothing any more. -/
theorem StereoUpdate_noop_frame_idempotent (c : StereoTypes) (w : vtkOpenGLRenderWindow) :
    (((w.StereoRender ≠ 0 ∧ w.StereoStatus ≠ 0) ∨
        (w.StereoRender = 0 ∧ w.StereoStatus = 0)) →
      (StereoUpdate c w).StereoStatus = w.StereoStatus ∧ StereoUpdate c w = w) ∧
    { StereoUpdate c w with StereoStatus := w.StereoStatus } = w ∧
    StereoUpdate c (StereoUpdate c w) = StereoUpdate c w := by
  refine ⟨?_, ?_, ?_⟩
  · intro hagree
    rw [StereoUpdate_of_agree c w hagree]
    exact ⟨rfl, rfl⟩
  · rcases StereoUpdate_cases c w with h | ⟨_, h⟩ | ⟨_, h⟩ <;> rw [h]
  · rcases StereoUpdate_cases c w with h | ⟨hr, h⟩ | ⟨hr, h⟩
    · rw [h, h]
    · rw [h]
      exact StereoUpdate_of_agree c _ (Or.inl ⟨hr, show ¬ (1 : Int) = 0 by decide⟩)
    · rw [h]
      exact StereoUpdate_of_agree c _ (Or.inr ⟨hr, rfl⟩)

/-- Stereo requested and already set up for anaglyph (7): nothing changes. -/
theorem StereoUpdate_noop_frame_idempotent_witness :
    StereoUpdate exampleStereoTypes (stereoWindow 1 1 7) = stereoWindow 1 1 7 ∧
    StereoUpdate exampleStereoTypes (StereoUpdate exampleStereoTypes (stereoWindow 1 0 7)) =
      StereoUpdate exampleStereoTypes (stereoWindow 1 0 7) :=
  ⟨((StereoUpdate_noop_frame_idempotent exampleStereoTypes (stereoWindow 1 1 7)).1
      (by decide)).2,
    (StereoUpdate_noop_frame_idempotent exampleStereoTypes (stereoWindow 1 0 7)).2.2⟩

/-- C16: for a `StereoType` that is none of the seven case labels,
`StereoUpdate` leaves the window, `StereoStatus` included, as it was, whatever
`StereoRender` and `StereoStatus` are; in particular a non-zero `StereoStatus`
stays non-zero when `StereoRender` is off. -/
theorem StereoUpdate_unhandled_type (c : StereoTypes) (w : vtkOpenGLRenderWindow)
    (hmode : w.StereoType ∉ [c.VTK_STEREO_CRYSTAL_EYES, c.VTK_STEREO_RED_BLUE,
      c.VTK_STEREO_ANAGLYPH, c.VTK_STEREO_DRESDEN, c.VTK_STEREO_INTERLACED,
      c.VTK_STEREO_CHECKERBOARD, c.VTK_STEREO_SPLITVIEWPORT_HORIZONTAL]) :
    StereoUpdate c w = w ∧
    (StereoUpdate c w).StereoStatus = w.StereoStatus ∧
    (w.StereoRender = 0 → w.StereoStatus ≠ 0 → (StereoUpdate c w).StereoStatus ≠ 0) ∧
    (w.StereoRender ≠ 0 → w.StereoStatus = 0 → (StereoUpdate c w).StereoStatus = 0) := by
  rw [StereoUpdate_of_unhandled c w hmode]
  exact ⟨rfl, rfl, fun _ h => h, fun _ h => h⟩

/-- Type 4 is no case label of the example numbering: the status stays 1 with
stereo off and stays 0 with stereo on. -/
theorem StereoUpdate_unhandled_type_witness :
    (StereoUpdate exampleStereoTypes (stereoWindow 0 1 4)).StereoStatus = 1 ∧
    (StereoUpdate exampleStereoTypes (stereoWindow 1 0 4)).StereoStatus = 0 :=
  ⟨(StereoUpdate_unhandled_type exampleStereoTypes (stereoWindow 0 1 4) (by decide)).2.1,
    (StereoUpdate_unhandled_type exampleStereoTypes (stereoWindow 1 0 4) (by decide)).2.1⟩

/-! ## Activation followed by deactivation -/

theorem eraseEntry_insertEntry {k : vtkTextureObject} {v : Int} :
    ∀ {l : List (vtkTextureObject × Int)}, findEntry k l = none →
      eraseEntry k (insertEntry k v l) = l
  | [], _ => by simp [insertEntry, eraseEntry]
  | (k', v') :: rest, h => by
    by_cases hk : k' = k
    · simp [findEntry, hk] at h
    · simp only [findEntry, if_neg hk] at h
      by_cases h1 : k < k'
      · simp [insertEntry, h1, eraseEntry]
      · have h2 : ¬ k = k' := fun e => hk e.symm
        simp only [insertEntry, if_neg h1, if_neg h2, eraseEntry, if_neg hk]
        rw [eraseEntry_insertEntry h]

theorem StdMap_eq_of_entries {m1 m2 : StdMap} (h : m1.entries = m2.entries) : m1 = m2 := by
  cases m1
  cases m2
  cases h
  rfl

/-- C19, round trip: for a texture that is not in `TextureResourceIds`, when
`ActivateTexture` obtains a unit `u >= 0` from the manager, a following
`DeactivateTexture` of the same texture calls `Free(u)`, right after the
`Allocate` that returned `u`, and `TextureResourceIds` is again the table from
before the activation; `u` is not handed out any more and the other units are
handed out as before. -/
theorem Activate_Deactivate_round_trip (policy : AllocatePolicy)
    (w : vtkOpenGLRenderWindow) (t : vtkTextureObject) (u : Int)
    (hnew : w.TextureResourceIds.find t = none)
    (halloc : (w.GetTextureUnitManager.1.Allocate policy).1 = u) (hunit : 0 ≤ u) :
    ((w.ActivateTexture policy t).DeactivateTexture t).TextureResourceIds =
      w.TextureResourceIds ∧
    poolCalls ((w.ActivateTexture policy t).DeactivateTexture t) =
      PoolCall.Free u :: PoolCall.Allocate u :: poolCalls w ∧
    handedOut (poolCalls ((w.ActivateTexture policy t).DeactivateTexture t)) =
      (handedOut (poolCalls w)).filter (fun v => v ≠ u) := by
  subst halloc
  have hself : (w.ActivateTexture policy t).TextureResourceIds.find t =
      some (w.GetTextureUnitManager.1.Allocate policy).1 := by
    rw [ActivateTexture_of_unit hnew hunit]
    exact findEntry_insertEntry_self hnew
  have hcalls : poolCalls ((w.ActivateTexture policy t).DeactivateTexture t) =
      PoolCall.Free (w.GetTextureUnitManager.1.Allocate policy).1 ::
        PoolCall.Allocate (w.GetTextureUnitManager.1.Allocate policy).1 :: poolCalls w := by
    rw [DeactivateTexture_of_known hself]
    show ((w.ActivateTexture policy t).GetTextureUnitManager.1.Free _).Calls = _
    rw [Free_calls, ActivateTexture_of_unit hnew hunit]
    show PoolCall.Free _ :: (w.GetTextureUnitManager.1.Allocate policy).2.Calls = _
    rw [Allocate_calls, Allocate_result]
  refine ⟨?_, hcalls, ?_⟩
  · rw [DeactivateTexture_of_known hself, ActivateTexture_of_unit hnew hunit]
    exact StdMap_eq_of_entries (eraseEntry_insertEntry hnew)
  · rw [hcalls]
    have hnot : ¬ (w.GetTextureUnitManager.1.Allocate policy).1 < 0 := not_lt.2 hunit
    simp [handedOut, hnot]

/-- Texture 5 holds unit 0 of three: activating and deactivating texture 3
allocates and frees unit 1 and leaves the table [(5, 0)]. -/
theorem Activate_Deactivate_round_trip_witness :
    (runCalls (firstFreeUnit 3) freshWindow
      [TextureCall.Activate 5]).TextureResourceIds.find 3 = none ∧
    ((((runCalls (firstFreeUnit 3) freshWindow
      [TextureCall.Activate 5]).ActivateTexture (firstFreeUnit 3) 3).DeactivateTexture
        3).TextureResourceIds.entries = [(5, 0)]) ∧
    poolCalls (((runCalls (firstFreeUnit 3) freshWindow
      [TextureCall.Activate 5]).ActivateTexture (firstFreeUnit 3) 3).DeactivateTexture 3) =
      [PoolCall.Free 1, PoolCall.Allocate 1, PoolCall.Allocate 0] :=
  have h := Activate_Deactivate_round_trip (firstFreeUnit 3)
    (runCalls (firstFreeUnit 3) freshWindow [TextureCall.Activate 5]) 3 1
    (by decide) (by decide) (by decide)
  ⟨by decide, by rw [h.1]; decide, by rw [h.2.1]; decide⟩

/-! ## Region arithmetic -/

theorem toInt_of_IsInt {z : Int} (h : IsInt z) : toInt z = z := by
  unfold IsInt INT_MIN INT_MAX at h
  unfold toInt
  omega

theorem canonicalBounds_eq (x1 y1 x2 y2 : Int) :
    canonicalBounds x1 y1 x2 y2 = ⟨min y1 y2, max y1 y2, min x1 x2, max x1 x2⟩ := by
  have hmin : ∀ a b : Int, (if a < b then a else b) = min a b := by
    intro a b
    split_ifs <;> omega
  have hmax : ∀ a b : Int, (if a < b then b else a) = max a b := by
    intro a b
    split_ifs <;> omega
  unfold canonicalBounds
  rw [hmin, hmin, hmax, hmax]

theorem extent_of_fits {lo hi : Int} (hle : lo ≤ hi) (hfit : IsInt (hi - lo + 1)) :
    intAdd (intAbs (intSub hi lo)) 1 = hi - lo + 1 ∧
    intAdd (intSub hi lo) 1 = hi - lo + 1 := by
  have hsub : IsInt (hi - lo) := by
    unfold IsInt INT_MIN INT_MAX at hfit ⊢
    omega
  have habs : intAbs (intSub hi lo) = hi - lo := by
    unfold intAbs intSub
    rw [toInt_of_IsInt hsub, if_neg (by omega), toInt_of_IsInt hsub]
  refine ⟨?_, ?_⟩
  · rw [habs]
    unfold intAdd
    exact toInt_of_IsInt hfit
  · unfold intAdd intSub
    rw [toInt_of_IsInt hsub]
    exact toInt_of_IsInt hfit

theorem colorExtent_of_fits {x1 y1 x2 y2 : Int}
    (hwidth : IsInt (max x1 x2 - min x1 x2 + 1))
    (hheight : IsInt (max y1 y2 - min y1 y2 + 1)) :
    colorExtent (canonicalBounds x1 y1 x2 y2) =
      (max x1 x2 - min x1 x2 + 1, max y1 y2 - min y1 y2 + 1) := by
  rw [canonicalBounds_eq]
  unfold colorExtent
  simp only
  rw [(extent_of_fits (min_le_max) hwidth).1, (extent_of_fits (min_le_max) hheight).1]

theorem depthExtent_of_fits {x1 y1 x2 y2 : Int}
    (hx1 : IsInt x1) (hy1 : IsInt y1) (hx2 : IsInt x2) (hy2 : IsInt y2)
    (hwidth : IsInt (max x1 x2 - min x1 x2 + 1))
    (hheight : IsInt (max y1 y2 - min y1 y2 + 1)) :
    depthExtent x1 y1 x2 y2 =
      (max x1 x2 - min x1 x2 + 1, max y1 y2 - min y1 y2 + 1) := by
  have key : ∀ a1 a2 : Int, IsInt a1 → IsInt a2 → IsInt (max a1 a2 - min a1 a2 + 1) →
      intAdd (intAbs (intSub a2 a1)) 1 = max a1 a2 - min a1 a2 + 1 := by
    intro a1 a2 _ _ hfit
    have hsub : IsInt (a2 - a1) := by
      unfold IsInt INT_MIN INT_MAX at hfit ⊢
      omega
    have hneg : IsInt (if a2 - a1 < 0 then -(a2 - a1) else a2 - a1) := by
      unfold IsInt INT_MIN INT_MAX at hfit ⊢
      split_ifs <;> omega
    have hval : (if a2 - a1 < 0 then -(a2 - a1) else a2 - a1) = max a1 a2 - min a1 a2 := by
      split_ifs <;> omega
    unfold intAbs intSub intAdd
    rw [toInt_of_IsInt hsub, toInt_of_IsInt hneg, hval]
    exact toInt_of_IsInt hfit
  unfold depthExtent
  rw [key x1 x2 hx1 hx2 hwidth, key y1 y2 hy1 hy2 hheight]

theorem depthOrigin_eq (x1 y1 x2 y2 : Int) :
    depthOrigin x1 y1 x2 y2 = (min x1 x2, min y1 y2) := by
  have hmin : ∀ a b : Int, (if a < b then a else b) = min a b := by
    intro a b
    split_ifs <;> omega
  unfold depthOrigin
  rw [hmin, hmin]

theorem colorSize_of_fits {C x1 y1 x2 y2 : Int} (hfits : RegionFits C x1 y1 x2 y2) :
    colorSize C x1 y1 x2 y2 =
      C * (max x1 x2 - min x1 x2 + 1) * (max y1 y2 - min y1 y2 + 1) := by
  obtain ⟨_, _, _, _, hwidth, hheight, hrow, hall⟩ := hfits
  unfold colorSize
  rw [colorExtent_of_fits hwidth hheight]
  unfold intMul
  simp only
  rw [toInt_of_IsInt hrow, toInt_of_IsInt hall]

theorem depthSize_of_fits {x1 y1 x2 y2 : Int} (hfits : RegionFits 1 x1 y1 x2 y2) :
    depthSize x1 y1 x2 y2 =
      (max x1 x2 - min x1 x2 + 1) * (max y1 y2 - min y1 y2 + 1) := by
  obtain ⟨hx1, hy1, hx2, hy2, hwidth, hheight, _, hall⟩ := hfits
  unfold depthSize
  rw [depthExtent_of_fits hx1 hy1 hx2 hy2 hwidth hheight]
  unfold intMul
  simp only
  rw [one_mul] at hall
  exact toInt_of_IsInt hall

/-! ## Commands and error flags -/

theorem glGetError_issued (w : vtkOpenGLRenderWindow) :
    w.glGetError.2.Graphics.Issued = w.Graphics.Issued := by
  unfold glGetError
  cases w.Graphics.Pending <;> rfl

theorem returnErrorCheck_issued (state : List Nat × vtkOpenGLRenderWindow) :
    (returnErrorCheck state).2.2.Graphics.Issued = state.2.Graphics.Issued := by
  have h := glGetError_issued state.2
  unfold returnErrorCheck
  cases hpoll : state.2.glGetError with
  | mk flag w1 =>
    rw [hpoll] at h
    cases flag <;> exact h

theorem glReadPixels_issued (driver : GLDriver) (w : vtkOpenGLRenderWindow)
    (x y width height : Int) (format : GLPixelFormat) (type : GLPixelType)
    (data : List Nat) :
    (w.glReadPixels driver x y width height format type data).2.Graphics.Issued =
      GLCommand.glReadPixels x y width height format type :: w.Graphics.Issued := by
  unfold glReadPixels
  split_ifs <;> rfl

/-! ## Contracts of the pixel functions -/

/-- C12, bounds canonicalization: for corners (x1, y1), (x2, y2) without `int`
overflow (the corners, `x_hi - x_low + 1` and `y_hi - y_low + 1` are `int`
values) the colour pixel functions compute `x_low = min(x1,x2)`,
`x_hi = max(x1,x2)`, `y_low = min(y1,y2)`, `y_hi = max(y1,y2)`, width
`x_hi - x_low + 1 >= 1` and height `y_hi - y_low + 1 >= 1`; the raw
`GetPixelData` and `GetRGBAPixelData` pass exactly this origin, width and
height to `glReadPixels`. -/
theorem pixel_bounds_canonical (x1 y1 x2 y2 : Int)
    (hwidth : IsInt (max x1 x2 - min x1 x2 + 1))
    (hheight : IsInt (max y1 y2 - min y1 y2 + 1)) :
    canonicalBounds x1 y1 x2 y2 = ⟨min y1 y2, max y1 y2, min x1 x2, max x1 x2⟩ ∧
    colorExtent (canonicalBounds x1 y1 x2 y2) =
      ((canonicalBounds x1 y1 x2 y2).x_hi - (canonicalBounds x1 y1 x2 y2).x_low + 1,
        (canonicalBounds x1 y1 x2 y2).y_hi - (canonicalBounds x1 y1 x2 y2).y_low + 1) ∧
    colorExtent (canonicalBounds x1 y1 x2 y2) =
      (max x1 x2 - min x1 x2 + 1, max y1 y2 - min y1 y2 + 1) ∧
    1 ≤ (colorExtent (canonicalBounds x1 y1 x2 y2)).1 ∧
    1 ≤ (colorExtent (canonicalBounds x1 y1 x2 y2)).2 ∧
    (∀ (driver : GLDriver) (w : vtkOpenGLRenderWindow) (front : Int) (data : List Nat),
      (w.GetPixelData driver x1 y1 x2 y2 front data).2.2.Graphics.Issued.head? =
        some (GLCommand.glReadPixels (min x1 x2) (min y1 y2)
          (max x1 x2 - min x1 x2 + 1) (max y1 y2 - min y1 y2 + 1)
          GLPixelFormat.GL_RGB GLPixelType.GL_UNSIGNED_BYTE)) ∧
    (∀ (driver : GLDriver) (w : vtkOpenGLRenderWindow) (front : Int) (data : List Nat),
      (w.GetRGBAPixelData driver x1 y1 x2 y2 front data).2.2.Graphics.Issued.head? =
        some (GLCommand.glReadPixels (min x1 x2) (min y1 y2)
          (max x1 x2 - min x1 x2 + 1) (max y1 y2 - min y1 y2 + 1)
          GLPixelFormat.GL_RGBA GLPixelType.GL_FLOAT)) := by
  have hext := colorExtent_of_fits hwidth hheight
  refine ⟨canonicalBounds_eq x1 y1 x2 y2, ?_, hext, ?_, ?_, ?_, ?_⟩
  · rw [hext, canonicalBounds_eq]
  · rw [hext]
    show 1 ≤ max x1 x2 - min x1 x2 + 1
    omega
  · rw [hext]
    show 1 ≤ max y1 y2 - min y1 y2 + 1
    omega
  · intro driver w front data
    unfold GetPixelData
    rw [returnErrorCheck_issued]
    unfold GetPixelDataBody
    simp only
    rw [glReadPixels_issued, canonicalBounds_eq]
    simp only
    rw [(extent_of_fits (min_le_max) hwidth).2, (extent_of_fits (min_le_max) hheight).2]
    rfl
  · intro driver w front data
    unfold GetRGBAPixelData
    rw [returnErrorCheck_issued]
    unfold GetRGBAPixelDataBody
    simp only
    rw [glReadPixels_issued, hext, canonicalBounds_eq]
    rfl

/-- The corners (10, 50) and (40, 5): x in [10, 40], y in [5, 50], width 31,
height 46. -/
theorem pixel_bounds_canonical_witness :
    canonicalBounds 10 50 40 5 = ⟨5, 50, 10, 40⟩ ∧
    colorExtent (canonicalBounds 10 50 40 5) = (31, 46) ∧
    (freshWindow.GetPixelData exampleDriver 10 50 40 5 1 []).2.2.Graphics.Issued.head? =
      some (GLCommand.glReadPixels 10 5 31 46
        GLPixelFormat.GL_RGB GLPixelType.GL_UNSIGNED_BYTE) :=
  have h := pixel_bounds_canonical 10 50 40 5 (by decide) (by decide)
  ⟨h.1.trans (by decide), h.2.2.1.trans (by decide),
    (h.2.2.2.2.2.1 exampleDriver freshWindow 1 []).trans (by decide)⟩

/-- C18, the two region computations agree and do not depend on the order of
the corners: without `int` overflow the depth buffer functions' width
`abs(x2 - x1) + 1`, height `abs(y2 - y1) + 1` and origin are the colour
functions' `x_hi - x_low + 1`, `y_hi - y_low + 1` and (`x_low`, `y_low`), the
origin being (min(x1,x2), min(y1,y2)); and exchanging `x1` with `x2`, `y1` with
`y2`, or both, leaves origin, width, height and the expected element counts as
they are. -/
theorem depth_and_color_regions_agree (x1 y1 x2 y2 : Int)
    (hx1 : IsInt x1) (hy1 : IsInt y1) (hx2 : IsInt x2) (hy2 : IsInt y2)
    (hwidth : IsInt (max x1 x2 - min x1 x2 + 1))
    (hheight : IsInt (max y1 y2 - min y1 y2 + 1)) :
    depthExtent x1 y1 x2 y2 = colorExtent (canonicalBounds x1 y1 x2 y2) ∧
    depthExtent x1 y1 x2 y2 =
      ((canonicalBounds x1 y1 x2 y2).x_hi - (canonicalBounds x1 y1 x2 y2).x_low + 1,
        (canonicalBounds x1 y1 x2 y2).y_hi - (canonicalBounds x1 y1 x2 y2).y_low + 1) ∧
    depthOrigin x1 y1 x2 y2 =
      ((canonicalBounds x1 y1 x2 y2).x_low, (canonicalBounds x1 y1 x2 y2).y_low) ∧
    depthOrigin x1 y1 x2 y2 = (min x1 x2, min y1 y2) ∧
    depthSize x1 y1 x2 y2 = colorSize 1 x1 y1 x2 y2 ∧
    (depthOrigin x2 y1 x1 y2 = depthOrigin x1 y1 x2 y2 ∧
      depthOrigin x1 y2 x2 y1 = depthOrigin x1 y1 x2 y2 ∧
      depthOrigin x2 y2 x1 y1 = depthOrigin x1 y1 x2 y2) ∧
    (depthExtent x2 y1 x1 y2 = depthExtent x1 y1 x2 y2 ∧
      depthExtent x1 y2 x2 y1 = depthExtent x1 y1 x2 y2 ∧
      depthExtent x2 y2 x1 y1 = depthExtent x1 y1 x2 y2) ∧
    (depthSize x2 y1 x1 y2 = depthSize x1 y1 x2 y2 ∧
      depthSize x1 y2 x2 y1 = depthSize x1 y1 x2 y2 ∧
      depthSize x2 y2 x1 y1 = depthSize x1 y1 x2 y2) ∧
    (canonicalBounds x2 y1 x1 y2 = canonicalBounds x1 y1 x2 y2 ∧
      canonicalBounds x1 y2 x2 y1 = canonicalBounds x1 y1 x2 y2 ∧
      canonicalBounds x2 y2 x1 y1 = canonicalBounds x1 y1 x2 y2) ∧
    (∀ C : Int, colorSize C x2 y1 x1 y2 = colorSize C x1 y1 x2 y2 ∧
      colorSize C x1 y2 x2 y1 = colorSize C x1 y1 x2 y2 ∧
      colorSize C x2 y2 x1 y1 = colorSize C x1 y1 x2 y2) := by
  have hwidth' : IsInt (max x2 x1 - min x2 x1 + 1) := by
    rw [max_comm, min_comm]
    exact hwidth
  have hheight' : IsInt (max y2 y1 - min y2 y1 + 1) := by
    rw [max_comm, min_comm]
    exact hheight
  have hd := depthExtent_of_fits hx1 hy1 hx2 hy2 hwidth hheight
  have hdx := depthExtent_of_fits hx2 hy1 hx1 hy2 hwidth' hheight
  have hdy := depthExtent_of_fits hx1 hy2 hx2 hy1 hwidth hheight'
  have hdxy := depthExtent_of_fits hx2 hy2 hx1 hy1 hwidth' hheight'
  rw [max_comm x2 x1, min_comm x2 x1] at hdx hdxy
  rw [max_comm y2 y1, min_comm y2 y1] at hdy hdxy
  have hc := colorExtent_of_fits hwidth hheight
  have hbx : canonicalBounds x2 y1 x1 y2 = canonicalBounds x1 y1 x2 y2 := by
    rw [canonicalBounds_eq, canonicalBounds_eq, max_comm x2 x1, min_comm x2 x1]
  have hby : canonicalBounds x1 y2 x2 y1 = canonicalBounds x1 y1 x2 y2 := by
    rw [canonicalBounds_eq, canonicalBounds_eq, max_comm y2 y1, min_comm y2 y1]
  have hbxy : canonicalBounds x2 y2 x1 y1 = canonicalBounds x1 y1 x2 y2 := by
    rw [canonicalBounds_eq, canonicalBounds_eq, max_comm x2 x1, min_comm x2 x1,
      max_comm y2 y1, min_comm y2 y1]
  refine ⟨hd.trans hc.symm, ?_, ?_, depthOrigin_eq x1 y1 x2 y2, ?_, ⟨?_, ?_, ?_⟩,
    ⟨hdx.trans hd.symm, hdy.trans hd.symm, hdxy.trans hd.symm⟩, ⟨?_, ?_, ?_⟩,
    ⟨hbx, hby, hbxy⟩, ?_⟩
  · rw [hd, canonicalBounds_eq]
  · rw [depthOrigin_eq, canonicalBounds_eq]
  · unfold depthSize colorSize
    rw [hd, hc]
    unfold intMul
    simp only [one_mul]
    congr 2
    exact (toInt_of_IsInt hwidth).symm
  · rw [depthOrigin_eq, depthOrigin_eq, min_comm x2 x1]
  · rw [depthOrigin_eq, depthOrigin_eq, min_comm y2 y1]
  · rw [depthOrigin_eq, depthOrigin_eq, min_comm x2 x1, min_comm y2 y1]
  · unfold depthSize
    rw [hdx, hd]
  · unfold depthSize
    rw [hdy, hd]
  · unfold depthSize
    rw [hdxy, hd]
  · intro C
    unfold colorSize
    rw [hbx, hby, hbxy]
    exact ⟨rfl, rfl, rfl⟩

/-- The corners (10, 50) and (40, 5): the depth and the colour functions both
use origin (10, 5), width 31 and height 46, also with the corners exchanged. -/
theorem depth_and_color_regions_agree_witness :
    depthExtent 10 50 40 5 = (31, 46) ∧
    colorExtent (canonicalBounds 10 50 40 5) = (31, 46) ∧
    depthOrigin 10 50 40 5 = (10, 5) ∧
    depthExtent 40 5 10 50 = (31, 46) ∧
    depthSize 40 5 10 50 = 1426 :=
  have h := depth_and_color_regions_agree 10 50 40 5 (by decide) (by decide) (by decide)
    (by decide) (by decide) (by decide)
  ⟨by decide, h.1.symm.trans (by decide), h.2.2.2.1.trans (by decide),
    h.2.2.2.2.2.2.1.2.2.trans (by decide), h.2.2.2.2.2.2.2.1.2.2.trans (by decide)⟩

theorem returnErrorCheck_data (state : List Nat × vtkOpenGLRenderWindow) :
    (returnErrorCheck state).2.1 = state.1 := by
  unfold returnErrorCheck
  cases hpoll : state.2.glGetError with
  | mk flag w1 => cases flag <;> rfl

theorem withStorage_of_same {data : vtkDataArray}
    {r : vtkResult × List Nat × vtkOpenGLRenderWindow} (h : r.2.1 = data.GetPointer) :
    withStorage data r = (r.1, data, r.2.2) := by
  unfold withStorage
  rw [h]
  rfl

/-- The capacity check of the write path, in terms of the `size` the code
computes: for every region and caller array, when the element count
`GetMaxId()+1` differs from `size` the array variants of `SetPixelData`,
`SetRGBAPixelData`, `SetRGBACharPixelData` and `SetZbufferData` return
`VTK_ERROR` with the array as it was and a window that differs only by the
logged error message (no command was issued, the raw function was not called);
when the count equals `size` they return what the raw-pointer function returns
on the same arguments and the array's storage, with the array as it was. For a
region whose `size` is computed without `int` overflow, `size` is
`width*height*C` with C = 3, 4, 4, 1. -/
theorem write_array_capacity_check (driver : GLDriver) (w : vtkOpenGLRenderWindow)
    (x1 y1 x2 y2 : Int) (data : vtkDataArray) (front blend : Int) :
    ((data.GetMaxId + 1 ≠ colorSize 3 x1 y1 x2 y2 →
        w.SetPixelDataArray driver x1 y1 x2 y2 data front =
          (vtkResult.VTK_ERROR, data, w.vtkErrorMacro "Buffer is of wrong size.")) ∧
      (data.GetMaxId + 1 = colorSize 3 x1 y1 x2 y2 →
        w.SetPixelDataArray driver x1 y1 x2 y2 data front =
          ((w.SetPixelData driver x1 y1 x2 y2 data.GetPointer front).1, data,
            (w.SetPixelData driver x1 y1 x2 y2 data.GetPointer front).2.2))) ∧
    ((data.GetMaxId + 1 ≠ colorSize 4 x1 y1 x2 y2 →
        w.SetRGBAPixelDataArray driver x1 y1 x2 y2 data front blend =
          (vtkResult.VTK_ERROR, data, w.vtkErrorMacro "Buffer is of wrong size.")) ∧
      (data.GetMaxId + 1 = colorSize 4 x1 y1 x2 y2 →
        w.SetRGBAPixelDataArray driver x1 y1 x2 y2 data front blend =
          ((w.SetRGBAPixelData driver x1 y1 x2 y2 data.GetPointer front blend).1, data,
            (w.SetRGBAPixelData driver x1 y1 x2 y2 data.GetPointer front blend).2.2))) ∧
    ((data.GetMaxId + 1 ≠ colorSize 4 x1 y1 x2 y2 →
        (w.SetRGBACharPixelDataArray driver x1 y1 x2 y2 data front blend).1 =
          vtkResult.VTK_ERROR ∧
        (w.SetRGBACharPixelDataArray driver x1 y1 x2 y2 data front blend).2.1 = data ∧
        { (w.SetRGBACharPixelDataArray driver x1 y1 x2 y2 data front blend).2.2 with
          ErrorLog := w.ErrorLog } = w ∧
        (w.SetRGBACharPixelDataArray driver x1 y1 x2 y2 data front blend).2.2.ErrorLog.length =
          w.ErrorLog.length + 1) ∧
      (data.GetMaxId + 1 = colorSize 4 x1 y1 x2 y2 →
        w.SetRGBACharPixelDataArray driver x1 y1 x2 y2 data front blend =
          ((w.SetRGBACharPixelData driver x1 y1 x2 y2 data.GetPointer front blend).1, data,
            (w.SetRGBACharPixelData driver x1 y1 x2 y2 data.GetPointer front blend).2.2))) ∧
    ((data.GetMaxId + 1 ≠ depthSize x1 y1 x2 y2 →
        w.SetZbufferDataArray x1 y1 x2 y2 data =
          (vtkResult.VTK_ERROR, data, w.vtkErrorMacro "Buffer is of wrong size.")) ∧
      (data.GetMaxId + 1 = depthSize x1 y1 x2 y2 →
        w.SetZbufferDataArray x1 y1 x2 y2 data =
          ((w.SetZbufferData x1 y1 x2 y2 data.GetPointer).1, data,
            (w.SetZbufferData x1 y1 x2 y2 data.GetPointer).2.2))) ∧
    (RegionFits 3 x1 y1 x2 y2 →
      colorSize 3 x1 y1 x2 y2 =
        (max x1 x2 - min x1 x2 + 1) * (max y1 y2 - min y1 y2 + 1) * 3) ∧
    (RegionFits 4 x1 y1 x2 y2 →
      colorSize 4 x1 y1 x2 y2 =
        (max x1 x2 - min x1 x2 + 1) * (max y1 y2 - min y1 y2 + 1) * 4) ∧
    (RegionFits 1 x1 y1 x2 y2 →
      depthSize x1 y1 x2 y2 =
        (max x1 x2 - min x1 x2 + 1) * (max y1 y2 - min y1 y2 + 1) * 1) := by
  refine ⟨⟨?_, ?_⟩, ⟨?_, ?_⟩, ⟨?_, ?_⟩, ⟨?_, ?_⟩, ?_, ?_, ?_⟩
  · intro hne
    unfold SetPixelDataArray
    simp only [if_pos hne]
  · intro heq
    unfold SetPixelDataArray
    simp only [heq, ne_eq, not_true_eq_false, if_false]
    exact withStorage_of_same (returnErrorCheck_data _)
  · intro hne
    unfold SetRGBAPixelDataArray
    simp only [if_pos hne]
  · intro heq
    unfold SetRGBAPixelDataArray
    simp only [heq, ne_eq, not_true_eq_false, if_false]
    exact withStorage_of_same (returnErrorCheck_data _)
  · intro hne
    have hcall : w.SetRGBACharPixelDataArray driver x1 y1 x2 y2 data front blend =
        (vtkResult.VTK_ERROR, data,
          w.vtkErrorMacro ("Buffer is of wrong size. It is " ++
            toString (data.GetMaxId + 1) ++ ", it should be: " ++
            toString (colorSize 4 x1 y1 x2 y2))) := by
      unfold SetRGBACharPixelDataArray
      simp only [if_pos hne]
    rw [hcall]
    exact ⟨rfl, rfl, rfl, rfl⟩
  · intro heq
    unfold SetRGBACharPixelDataArray
    simp only [heq, ne_eq, not_true_eq_false, if_false]
    exact withStorage_of_same (returnErrorCheck_data _)
  · intro hne
    unfold SetZbufferDataArray
    simp only [if_pos hne]
  · intro heq
    unfold SetZbufferDataArray
    simp only [heq, ne_eq, not_true_eq_false, if_false]
    exact withStorage_of_same rfl
  · intro hfits
    rw [colorSize_of_fits hfits]
    ring
  · intro hfits
    rw [colorSize_of_fits hfits]
    ring
  · intro hfits
    rw [depthSize_of_fits hfits]
    ring

/-- The region (1, 2)-(2, 1) holds 2*2 pixels: an RGB array of one value is
rejected, one of twelve values is written. -/
theorem write_array_capacity_check_witness :
    freshWindow.SetPixelDataArray exampleDriver 1 2 2 1 ⟨3, [5]⟩ 0 =
      (vtkResult.VTK_ERROR, ⟨3, [5]⟩, freshWindow.vtkErrorMacro "Buffer is of wrong size.") ∧
    (freshWindow.SetPixelDataArray exampleDriver 1 2 2 1
      ⟨3, [1, 2, 3, 4, 5, 6, 7, 8, 9, 10, 11, 12]⟩ 0).1 = vtkResult.VTK_OK ∧
    colorSize 3 1 2 2 1 = 12 :=
  have h1 := write_array_capacity_check exampleDriver freshWindow 1 2 2 1 ⟨3, [5]⟩ 0 0
  have h2 := write_array_capacity_check exampleDriver freshWindow 1 2 2 1
    ⟨3, [1, 2, 3, 4, 5, 6, 7, 8, 9, 10, 11, 12]⟩ 0 0
  ⟨h1.1.1 (by decide), by rw [h2.1.2 (by decide)]; decide,
    (h1.2.2.2.2.1 (by decide)).trans (by decide)⟩

/-- C17, `SetZbufferData` never succeeds: the raw-pointer function returns
`VTK_ERROR` for every region and buffer, and the `vtkFloatArray` variant returns
`VTK_ERROR` when the array size differs from `size` and when it matches, so
neither ever returns `VTK_OK`. -/
theorem SetZbufferData_never_succeeds (w : vtkOpenGLRenderWindow) (x1 y1 x2 y2 : Int)
    (buffer : List Nat) (array : vtkDataArray) :
    (w.SetZbufferData x1 y1 x2 y2 buffer).1 = vtkResult.VTK_ERROR ∧
    (array.GetMaxId + 1 ≠ depthSize x1 y1 x2 y2 →
      (w.SetZbufferDataArray x1 y1 x2 y2 array).1 = vtkResult.VTK_ERROR) ∧
    (array.GetMaxId + 1 = depthSize x1 y1 x2 y2 →
      (w.SetZbufferDataArray x1 y1 x2 y2 array).1 = vtkResult.VTK_ERROR) ∧
    (w.SetZbufferDataArray x1 y1 x2 y2 array).1 = vtkResult.VTK_ERROR ∧
    (w.SetZbufferData x1 y1 x2 y2 buffer).1 ≠ vtkResult.VTK_OK ∧
    (w.SetZbufferDataArray x1 y1 x2 y2 array).1 ≠ vtkResult.VTK_OK := by
  have harray : (w.SetZbufferDataArray x1 y1 x2 y2 array).1 = vtkResult.VTK_ERROR := by
    unfold SetZbufferDataArray
    simp only
    split_ifs <;> rfl
  refine ⟨rfl, fun _ => harray, fun _ => harray, harray, ?_, ?_⟩
  · show vtkResult.VTK_ERROR ≠ vtkResult.VTK_OK
    decide
  · rw [harray]
    decide

/-- A depth array of the right size (four values for 2*2 pixels) and one of the
wrong size are both refused. -/
theorem SetZbufferData_never_succeeds_witness :
    depthSize 1 2 2 1 = 4 ∧
    (freshWindow.SetZbufferDataArray 1 2 2 1 ⟨1, [0, 0, 0, 0]⟩).1 = vtkResult.VTK_ERROR ∧
    (freshWindow.SetZbufferDataArray 1 2 2 1 ⟨1, [0]⟩).1 = vtkResult.VTK_ERROR :=
  ⟨by decide,
    (SetZbufferData_never_succeeds freshWindow 1 2 2 1 [] ⟨1, [0, 0, 0, 0]⟩).2.2.1
      (by decide),
    (SetZbufferData_never_succeeds freshWindow 1 2 2 1 [] ⟨1, [0]⟩).2.1 (by decide)⟩

/-! ## The error protocol of the raw-pointer functions -/

theorem readPixelValues_length (pixel : Int → Int → Nat → Nat) (x y width height : Int)
    (components : Nat) :
    (readPixelValues pixel x y width height components).length =
      height.toNat * width.toNat * components := by
  unfold readPixelValues
  rw [List.length_map, List.length_range]

theorem storeAt_length {data values : List Nat} (h : values.length = data.length) :
    (storeAt data values).length = data.length := by
  unfold storeAt
  rw [List.length_append, List.length_drop, h]
  omega

theorem glReadPixels_data_length (driver : GLDriver) (w : vtkOpenGLRenderWindow)
    (x y width height : Int) (format : GLPixelFormat) (type : GLPixelType)
    {data : List Nat} (h : height.toNat * width.toNat * format.components = data.length) :
    (w.glReadPixels driver x y width height format type data).1.length = data.length := by
  unfold glReadPixels
  split_ifs
  · exact storeAt_length ((readPixelValues_length _ _ _ _ _ _).trans h)
  · rfl

theorem toNat_product {W H : Int} {c n : Nat} (hW : 0 ≤ W) (hH : 0 ≤ H)
    (h : (n : Int) = W * H * c) : H.toNat * W.toNat * c = n := by
  have hcast : ((H.toNat * W.toNat * c : Nat) : Int) = (n : Int) := by
    push_cast
    rw [Int.toNat_of_nonneg hW, Int.toNat_of_nonneg hH, h]
    ring
  exact_mod_cast hcast

theorem extent_nonneg {a1 a2 : Int} : 0 ≤ max a1 a2 - min a1 a2 + 1 := by
  omega

theorem GetPixelData_length (driver : GLDriver) (w : vtkOpenGLRenderWindow)
    {x1 y1 x2 y2 : Int} (front : Int) {data : List Nat}
    (hfits : RegionFits 3 x1 y1 x2 y2)
    (h : (data.length : Int) =
      (max x1 x2 - min x1 x2 + 1) * (max y1 y2 - min y1 y2 + 1) * 3) :
    (w.GetPixelData driver x1 y1 x2 y2 front data).2.1.length = data.length := by
  obtain ⟨_, _, _, _, hwidth, hheight, _, _⟩ := hfits
  unfold GetPixelData
  rw [returnErrorCheck_data]
  unfold GetPixelDataBody
  simp only
  rw [canonicalBounds_eq]
  simp only
  rw [(extent_of_fits (min_le_max) hwidth).2, (extent_of_fits (min_le_max) hheight).2]
  exact glReadPixels_data_length _ _ _ _ _ _ _ _
    (toNat_product extent_nonneg extent_nonneg h)

theorem GetRGBAPixelData_length (driver : GLDriver) (w : vtkOpenGLRenderWindow)
    {x1 y1 x2 y2 : Int} (front : Int) {data : List Nat}
    (hfits : RegionFits 4 x1 y1 x2 y2)
    (h : (data.length : Int) =
      (max x1 x2 - min x1 x2 + 1) * (max y1 y2 - min y1 y2 + 1) * 4) :
    (w.GetRGBAPixelData driver x1 y1 x2 y2 front data).2.1.length = data.length := by
  obtain ⟨_, _, _, _, hwidth, hheight, _, _⟩ := hfits
  unfold GetRGBAPixelData
  rw [returnErrorCheck_data]
  unfold GetRGBAPixelDataBody
  simp only
  rw [colorExtent_of_fits hwidth hheight]
  exact glReadPixels_data_length _ _ _ _ _ _ _ _
    (toNat_product extent_nonneg extent_nonneg h)

theorem GetRGBACharPixelData_length (driver : GLDriver) (w : vtkOpenGLRenderWindow)
    {x1 y1 x2 y2 : Int} (front : Int) {data : List Nat}
    (hfits : RegionFits 4 x1 y1 x2 y2)
    (h : (data.length : Int) =
      (max x1 x2 - min x1 x2 + 1) * (max y1 y2 - min y1 y2 + 1) * 4) :
    (w.GetRGBACharPixelData driver x1 y1 x2 y2 front data).2.1.length = data.length := by
  obtain ⟨_, _, _, _, hwidth, hheight, _, _⟩ := hfits
  unfold GetRGBACharPixelData
  rw [returnErrorCheck_data]
  unfold GetRGBACharPixelDataBody
  simp only
  rw [colorExtent_of_fits hwidth hheight]
  exact glReadPixels_data_length _ _ _ _ _ _ _ _
    (toNat_product extent_nonneg extent_nonneg h)

theorem GetZbufferData_length (driver : GLDriver) (w : vtkOpenGLRenderWindow)
    {x1 y1 x2 y2 : Int} {z_data : List Nat}
    (hfits : RegionFits 1 x1 y1 x2 y2)
    (h : (z_data.length : Int) =
      (max x1 x2 - min x1 x2 + 1) * (max y1 y2 - min y1 y2 + 1) * 1) :
    (w.GetZbufferData driver x1 y1 x2 y2 z_data).2.1.length = z_data.length := by
  obtain ⟨hx1, hy1, hx2, hy2, hwidth, hheight, _, _⟩ := hfits
  unfold GetZbufferData
  rw [returnErrorCheck_data]
  unfold GetZbufferDataBody
  simp only
  rw [depthExtent_of_fits hx1 hy1 hx2 hy2 hwidth hheight]
  exact glReadPixels_data_length _ _ _ _ _ _ _ _
    (toNat_product extent_nonneg extent_nonneg h)

theorem GetMaxId_SetNumberOfValues (a : vtkDataArray) (C : Int) {size : Int}
    (hsize : 0 ≤ size) :
    ((a.SetNumberOfComponents C).SetNumberOfValues size).GetMaxId + 1 = size := by
  unfold vtkDataArray.GetMaxId vtkDataArray.SetNumberOfValues
  simp only [List.length_replicate]
  rw [Int.toNat_of_nonneg hsize]
  omega

theorem HandsOverExactly_of_resize
    {arrayOp : vtkDataArray → vtkResult × vtkDataArray × vtkOpenGLRenderWindow}
    {rawOp : vtkOpenGLRenderWindow → List Nat →
      vtkResult × List Nat × vtkOpenGLRenderWindow}
    {w : vtkOpenGLRenderWindow} {data : vtkDataArray} {count : Int} (C : Int)
    (hcount : 0 ≤ count)
    (hmatch : data.GetMaxId + 1 = count →
      arrayOp data = withStorage data (rawOp w data.GetPointer))
    (hresize : data.GetMaxId + 1 ≠ count →
      arrayOp data =
        withStorage ((data.SetNumberOfComponents C).SetNumberOfValues count)
          (rawOp (w.vtkDebugMacro "Resizing array.")
            ((data.SetNumberOfComponents C).SetNumberOfValues count).GetPointer))
    (hraw : ∀ (w1 : vtkOpenGLRenderWindow) (buffer : List Nat),
      (buffer.length : Int) = count → (rawOp w1 buffer).2.1.length = buffer.length) :
    HandsOverExactly arrayOp rawOp w data count := by
  have hafter : ∀ (handed : vtkDataArray) (w1 : vtkOpenGLRenderWindow),
      handed.GetMaxId + 1 = count →
      (withStorage handed (rawOp w1 handed.GetPointer)).2.1.GetMaxId + 1 = count := by
    intro handed w1 hhanded
    have hlen : (handed.GetPointer.length : Int) = count := by
      unfold vtkDataArray.GetMaxId at hhanded
      unfold vtkDataArray.GetPointer
      omega
    have := hraw w1 handed.GetPointer hlen
    unfold withStorage vtkDataArray.GetMaxId
    simp only
    rw [this]
    omega
  by_cases hc : data.GetMaxId + 1 = count
  · refine ⟨data, w, hmatch hc, hc, fun _ => ⟨rfl, rfl⟩, rfl, ?_, ?_⟩
    · rw [hmatch hc]
      rfl
    · rw [hmatch hc]
      exact hafter data w hc
  · have hresized := GetMaxId_SetNumberOfValues data C hcount
    refine ⟨(data.SetNumberOfComponents C).SetNumberOfValues count,
      w.vtkDebugMacro "Resizing array.", hresize hc, hresized,
      fun h => absurd h hc, rfl, ?_, ?_⟩
    · rw [hresize hc]
      rfl
    · rw [hresize hc]
      exact hafter _ _ hresized

/-- The resize of the read path for a region whose `size` is computed without
`int` overflow: for a caller array of any size, the array variants of
`GetPixelData`, `GetRGBAPixelData`, `GetRGBACharPixelData` and `GetZbufferData`
hand the raw-pointer read an array of exactly `width*height*C` values
(C = 3, 4, 4, 1), the number of values `glReadPixels` stores for that region;
an array that already has that many values is handed over as it is; the result
code is the one of the raw-pointer read on the array handed over; and the array
has that many values afterwards. -/
theorem read_array_resize (driver : GLDriver) (w : vtkOpenGLRenderWindow)
    (x1 y1 x2 y2 front : Int) (data : vtkDataArray) :
    (RegionFits 3 x1 y1 x2 y2 →
      HandsOverExactly (fun d => w.GetPixelDataArray driver x1 y1 x2 y2 front d)
        (fun w1 buffer => w1.GetPixelData driver x1 y1 x2 y2 front buffer) w data
        ((max x1 x2 - min x1 x2 + 1) * (max y1 y2 - min y1 y2 + 1) * 3)) ∧
    (RegionFits 4 x1 y1 x2 y2 →
      HandsOverExactly (fun d => w.GetRGBAPixelDataArray driver x1 y1 x2 y2 front d)
        (fun w1 buffer => w1.GetRGBAPixelData driver x1 y1 x2 y2 front buffer) w data
        ((max x1 x2 - min x1 x2 + 1) * (max y1 y2 - min y1 y2 + 1) * 4)) ∧
    (RegionFits 4 x1 y1 x2 y2 →
      HandsOverExactly (fun d => w.GetRGBACharPixelDataArray driver x1 y1 x2 y2 front d)
        (fun w1 buffer => w1.GetRGBACharPixelData driver x1 y1 x2 y2 front buffer) w data
        ((max x1 x2 - min x1 x2 + 1) * (max y1 y2 - min y1 y2 + 1) * 4)) ∧
    (RegionFits 1 x1 y1 x2 y2 →
      HandsOverExactly (fun d => w.GetZbufferDataArray driver x1 y1 x2 y2 d)
        (fun w1 buffer => w1.GetZbufferData driver x1 y1 x2 y2 buffer) w data
        ((max x1 x2 - min x1 x2 + 1) * (max y1 y2 - min y1 y2 + 1) * 1)) ∧
    (∀ (pixel : Int → Int → Nat → Nat) (format : GLPixelFormat),
      ((readPixelValues pixel (min x1 x2) (min y1 y2) (max x1 x2 - min x1 x2 + 1)
        (max y1 y2 - min y1 y2 + 1) format.components).length : Int) =
      (max x1 x2 - min x1 x2 + 1) * (max y1 y2 - min y1 y2 + 1) * format.components) := by
  have hW : (0 : Int) ≤ max x1 x2 - min x1 x2 + 1 := extent_nonneg
  have hH : (0 : Int) ≤ max y1 y2 - min y1 y2 + 1 := extent_nonneg
  refine ⟨?_, ?_, ?_, ?_, ?_⟩
  · intro hfits3
    have hsize : colorSize 3 x1 y1 x2 y2 =
        (max x1 x2 - min x1 x2 + 1) * (max y1 y2 - min y1 y2 + 1) * 3 := by
      rw [colorSize_of_fits hfits3]
      ring
    refine HandsOverExactly_of_resize 3 (by positivity) ?_ ?_ ?_
    · intro hc
      show w.GetPixelDataArray driver x1 y1 x2 y2 front data = _
      unfold GetPixelDataArray
      simp only [hsize, hc, ne_eq, not_true_eq_false, if_false]
    · intro hc
      show w.GetPixelDataArray driver x1 y1 x2 y2 front data = _
      unfold GetPixelDataArray
      simp only [hsize, ne_eq, hc, not_false_eq_true, if_true]
    · intro w1 buffer hlen
      exact GetPixelData_length driver w1 front hfits3 hlen
  · intro hfits
    have hsize : colorSize 4 x1 y1 x2 y2 =
        (max x1 x2 - min x1 x2 + 1) * (max y1 y2 - min y1 y2 + 1) * 4 := by
      rw [colorSize_of_fits hfits]
      ring
    refine HandsOverExactly_of_resize 4 (by positivity) ?_ ?_ ?_
    · intro hc
      show w.GetRGBAPixelDataArray driver x1 y1 x2 y2 front data = _
      unfold GetRGBAPixelDataArray
      simp only [hsize, hc, ne_eq, not_true_eq_false, if_false]
    · intro hc
      show w.GetRGBAPixelDataArray driver x1 y1 x2 y2 front data = _
      unfold GetRGBAPixelDataArray
      simp only [hsize, ne_eq, hc, not_false_eq_true, if_true]
    · intro w1 buffer hlen
      exact GetRGBAPixelData_length driver w1 front hfits hlen
  · intro hfits
    have hsize : colorSize 4 x1 y1 x2 y2 =
        (max x1 x2 - min x1 x2 + 1) * (max y1 y2 - min y1 y2 + 1) * 4 := by
      rw [colorSize_of_fits hfits]
      ring
    refine HandsOverExactly_of_resize 4 (by positivity) ?_ ?_ ?_
    · intro hc
      show w.GetRGBACharPixelDataArray driver x1 y1 x2 y2 front data = _
      unfold GetRGBACharPixelDataArray
      simp only [hsize, hc, ne_eq, not_true_eq_false, if_false]
    · intro hc
      show w.GetRGBACharPixelDataArray driver x1 y1 x2 y2 front data = _
      unfold GetRGBACharPixelDataArray
      simp only [hsize, ne_eq, hc, not_false_eq_true, if_true]
    · intro w1 buffer hlen
      exact GetRGBACharPixelData_length driver w1 front hfits hlen
  · intro hfits1
    have hsize : depthSize x1 y1 x2 y2 =
        (max x1 x2 - min x1 x2 + 1) * (max y1 y2 - min y1 y2 + 1) * 1 := by
      rw [depthSize_of_fits hfits1]
      ring
    refine HandsOverExactly_of_resize 1 (by positivity) ?_ ?_ ?_
    · intro hc
      show w.GetZbufferDataArray driver x1 y1 x2 y2 data = _
      unfold GetZbufferDataArray
      simp only [hsize, hc, ne_eq, not_true_eq_false, if_false]
    · intro hc
      show w.GetZbufferDataArray driver x1 y1 x2 y2 data = _
      unfold GetZbufferDataArray
      simp only [hsize, ne_eq, hc, not_false_eq_true, if_true]
    · intro w1 buffer hlen
      exact GetZbufferData_length driver w1 hfits1 hlen
  · intro pixel format
    rw [readPixelValues_length]
    push_cast
    rw [Int.toNat_of_nonneg hW, Int.toNat_of_nonneg hH]
    ring

/-- The region (1, 2)-(2, 1), 2*2 pixels: a depth array of one value is resized
to four values and read; an RGB array of twelve values is read as it is. -/
theorem read_array_resize_witness :
    RegionFits 4 1 2 2 1 ∧
    (freshWindow.GetZbufferDataArray exampleDriver 1 2 2 1 ⟨3, [5]⟩) =
      (vtkResult.VTK_OK, ⟨1, [11, 12, 21, 22]⟩,
        (freshWindow.GetZbufferDataArray exampleDriver 1 2 2 1 ⟨3, [5]⟩).2.2) ∧
    (freshWindow.GetPixelDataArray exampleDriver 1 2 2 1 1
      ⟨3, [0, 0, 0, 0, 0, 0, 0, 0, 0, 0, 0, 0]⟩).2.1.GetMaxId + 1 = 12 :=
  have h := (read_array_resize exampleDriver freshWindow 1 2 2 1 1
    ⟨3, [0, 0, 0, 0, 0, 0, 0, 0, 0, 0, 0, 0]⟩).1 (by decide)
  ⟨by decide, by decide,
    (Exists.elim h (fun _ hw => Exists.elim hw (fun _ hall => hall.2.2.2.2.2))).trans
      (by decide)⟩

/-! ## Overflow of `size` -/

/-- C13, failing input: for the region (0, 0)-(65535, 65535) the colour
functions compute width 65536 and height 65536, so the expected element counts
are 65536*65536*3 and 65536*65536*4, and `int size = C*width*height` is 0 in
32-bit `int` arithmetic. An empty array, whose element count 0 differs from the
expected count, is not rejected: the array variants of `SetPixelData`,
`SetRGBAPixelData` and `SetRGBACharPixelData` call the raw-pointer function and
return its result; on the example implementation that is `VTK_OK`, with twelve
commands issued and no error message logged. -/
theorem write_array_check_overflow :
    colorExtent (canonicalBounds 0 0 65535 65535) = (65536, 65536) ∧
    colorSize 3 0 0 65535 65535 = 0 ∧
    colorSize 4 0 0 65535 65535 = 0 ∧
    (⟨3, []⟩ : vtkDataArray).GetMaxId + 1 ≠ 65536 * 65536 * 3 ∧
    (⟨4, []⟩ : vtkDataArray).GetMaxId + 1 ≠ 65536 * 65536 * 4 ∧
    (∀ (driver : GLDriver) (w : vtkOpenGLRenderWindow) (front : Int),
      w.SetPixelDataArray driver 0 0 65535 65535 ⟨3, []⟩ front =
        ((w.SetPixelData driver 0 0 65535 65535 [] front).1, ⟨3, []⟩,
          (w.SetPixelData driver 0 0 65535 65535 [] front).2.2)) ∧
    (∀ (driver : GLDriver) (w : vtkOpenGLRenderWindow) (front blend : Int),
      w.SetRGBAPixelDataArray driver 0 0 65535 65535 ⟨4, []⟩ front blend =
        ((w.SetRGBAPixelData driver 0 0 65535 65535 [] front blend).1, ⟨4, []⟩,
          (w.SetRGBAPixelData driver 0 0 65535 65535 [] front blend).2.2)) ∧
    (∀ (driver : GLDriver) (w : vtkOpenGLRenderWindow) (front blend : Int),
      w.SetRGBACharPixelDataArray driver 0 0 65535 65535 ⟨4, []⟩ front blend =
        ((w.SetRGBACharPixelData driver 0 0 65535 65535 [] front blend).1, ⟨4, []⟩,
          (w.SetRGBACharPixelData driver 0 0 65535 65535 [] front blend).2.2)) ∧
    (freshWindow.SetPixelDataArray exampleDriver 0 0 65535 65535 ⟨3, []⟩ 0).1 =
      vtkResult.VTK_OK ∧
    (freshWindow.SetRGBAPixelDataArray exampleDriver 0 0 65535 65535 ⟨4, []⟩ 0 0).1 =
      vtkResult.VTK_OK ∧
    (freshWindow.SetRGBACharPixelDataArray exampleDriver 0 0 65535 65535 ⟨4, []⟩ 0 0).1 =
      vtkResult.VTK_OK ∧
    (freshWindow.SetRGBAPixelDataArray exampleDriver 0 0 65535 65535
      ⟨4, []⟩ 0 0).2.2.ErrorLog = [] ∧
    (freshWindow.SetRGBAPixelDataArray exampleDriver 0 0 65535 65535
      ⟨4, []⟩ 0 0).2.2.Graphics.Issued.length = 12 := by
  refine ⟨by decide, by decide, by decide, by decide, by decide, ?_, ?_, ?_,
    by decide, by decide, by decide, by decide, by decide⟩
  · intro driver w front
    exact (write_array_capacity_check driver w 0 0 65535 65535 ⟨3, []⟩ front 0).1.2
      (by decide)
  · intro driver w front blend
    exact (write_array_capacity_check driver w 0 0 65535 65535 ⟨4, []⟩ front blend).2.1.2
      (by decide)
  · intro driver w front blend
    exact (write_array_capacity_check driver w 0 0 65535 65535 ⟨4, []⟩ front blend).2.2.1.2
      (by decide)

/-- C14, failing input: for the region (0, 0)-(65535, 65535) the expected
element count of an RGBA read is 65536*65536*4 = 17179869184, and
`int size = 4*width*height` is 0 in 32-bit `int` arithmetic (as are the sizes of
the RGB and the depth read). The array variant of `GetRGBAPixelData` resizes a
caller array of five values to 0 values, and hands over an empty array as it
is; the raw-pointer read then calls `glReadPixels(0, 0, 65536, 65536, GL_RGBA,
GL_FLOAT, data)`, which stores 17179869184 values at the storage of an array
that holds none. -/
theorem read_array_resize_overflow :
    colorExtent (canonicalBounds 0 0 65535 65535) = (65536, 65536) ∧
    colorSize 4 0 0 65535 65535 = 0 ∧
    colorSize 3 0 0 65535 65535 = 0 ∧
    depthSize 0 0 65535 65535 = 0 ∧
    (17179869184 : Int) = 65536 * 65536 * 4 ∧
    (∀ (driver : GLDriver) (w : vtkOpenGLRenderWindow) (front : Int),
      w.GetRGBAPixelDataArray driver 0 0 65535 65535 front ⟨4, [1, 2, 3, 4, 5]⟩ =
        withStorage ⟨4, []⟩
          ((w.vtkDebugMacro "Resizing array.").GetRGBAPixelData driver 0 0 65535 65535
            front [])) ∧
    (∀ (driver : GLDriver) (w : vtkOpenGLRenderWindow) (front : Int),
      w.GetRGBAPixelDataArray driver 0 0 65535 65535 front ⟨4, []⟩ =
        withStorage ⟨4, []⟩ (w.GetRGBAPixelData driver 0 0 65535 65535 front [])) ∧
    (∀ (driver : GLDriver) (w : vtkOpenGLRenderWindow) (front : Int) (buffer : List Nat),
      (w.GetRGBAPixelData driver 0 0 65535 65535 front buffer).2.2.Graphics.Issued.head? =
        some (GLCommand.glReadPixels 0 0 65536 65536 GLPixelFormat.GL_RGBA
          GLPixelType.GL_FLOAT)) ∧
    (∀ pixel : Int → Int → Nat → Nat,
      (readPixelValues pixel 0 0 65536 65536 GLPixelFormat.GL_RGBA.components).length =
        17179869184) ∧
    (freshWindow.GetRGBAPixelDataArray exampleDriver 0 0 65535 65535 1
      ⟨4, [1, 2, 3, 4, 5]⟩).1 = vtkResult.VTK_OK := by
  have hbounds : canonicalBounds 0 0 65535 65535 = ⟨0, 65535, 0, 65535⟩ := by decide
  have hextent : colorExtent (canonicalBounds 0 0 65535 65535) = (65536, 65536) := by
    decide
  refine ⟨hextent, by decide, by decide, by decide, by decide, ?_, ?_, ?_, ?_, by decide⟩
  · intro driver w front
    rfl
  · intro driver w front
    rfl
  · intro driver w front buffer
    unfold GetRGBAPixelData
    rw [returnErrorCheck_issued]
    unfold GetRGBAPixelDataBody
    simp only
    rw [glReadPixels_issued, hextent, hbounds]
    rfl
  · intro pixel
    rw [readPixelValues_length]
    decide

end VTK
